import Mathlib

/-!
Verification development for the pose-comparison and session-analysis engine
of the `improve-ai` repository.

Shallow embedding conventions:
* JavaScript numbers are modelled as real numbers (`ℝ`); `Math.sqrt` is
  `Real.sqrt`, `Math.acos` is `Real.arccos`, `Math.round x` is `⌊x + 1/2⌋`
  (round half toward +∞), `Math.floor` on naturals is `Nat` division.
* A pose is a list of landmarks; JavaScript array indexing `lm[i]` in contexts
  guarded by a length check is modelled by total indexing `nth` (default
  landmark out of range); where the JavaScript explicitly tests the element
  for `undefined` (`analyzeDifference`) we use `List.get?`.
* Module-level mutable state (`audioCoach.js`) is modelled by explicit state
  passing; `Date.now()` becomes a `now` argument; `comparePoses`' `timestamp`
  field (a clock side effect) is omitted from the result record.
* `Array.prototype.sort` with a numeric comparator is a stable sort in
  JavaScript; it is modelled by a stable insertion sort on the same key.
-/

/-- A MediaPipe landmark: `{x, y, z, visibility}` (all JS numbers).
The JS code defends against missing `z`/`visibility` with `|| 0`; here the
fields are total. -/
structure Landmark where
  x : ℝ
  y : ℝ
  z : ℝ
  visibility : ℝ

/-- A pose: a (supposedly 33-element) list of landmarks. -/
abbrev Pose := List Landmark

def defaultLandmark : Landmark := ⟨0, 0, 0, 0⟩

/-- Total array indexing `landmarks[i]` for contexts where the JS code has
already guaranteed the index is in range. -/
def nth (p : Pose) (n : ℕ) : Landmark := p.getD n defaultLandmark

/-- `midpoint(a, b)` from poseNormalizer.js (named `midpointLm` because
Mathlib already declares `midpoint`). -/
noncomputable def midpointLm (a b : Landmark) : Landmark :=
  ⟨(a.x + b.x) / 2, (a.y + b.y) / 2, (a.z + b.z) / 2,
   min a.visibility b.visibility⟩

/-- `distance(a, b)` from poseNormalizer.js. -/
noncomputable def distance (a b : Landmark) : ℝ :=
  Real.sqrt ((a.x - b.x) ^ 2 + (a.y - b.y) ^ 2 + (a.z - b.z) ^ 2)

noncomputable def midHipOf (p : Pose) : Landmark := midpointLm (nth p 23) (nth p 24)

noncomputable def midShoulderOf (p : Pose) : Landmark := midpointLm (nth p 11) (nth p 12)

/-- The torso length used as normalization scale. -/
noncomputable def torsoLenOf (p : Pose) : ℝ := distance (midShoulderOf p) (midHipOf p)

/-- The per-landmark body of `normalizePose`'s `map`: translate by the hip
midpoint, divide by the torso length, carry visibility through. -/
noncomputable def normFun (p : Pose) (lm : Landmark) : Landmark :=
  ⟨(lm.x - (midHipOf p).x) / torsoLenOf p,
   (lm.y - (midHipOf p).y) / torsoLenOf p,
   (lm.z - (midHipOf p).z) / torsoLenOf p,
   lm.visibility⟩

/-- `normalizePose(landmarks)` from poseNormalizer.js: `null` when fewer than
33 landmarks or the torso length is degenerate; otherwise translate by the hip
midpoint and divide by the torso length, carrying visibility through. -/
noncomputable def normalizePose (p : Pose) : Option Pose :=
  if p.length < 33 then none
  else if torsoLenOf p < 0.001 then none
  else some (p.map (normFun p))

/-- The fixed left/right swap table of `mirrorPose`. -/
def SWAP_PAIRS : List (ℕ × ℕ) :=
  [(11, 12), (13, 14), (15, 16), (17, 18), (19, 20), (21, 22),
   (23, 24), (25, 26), (27, 28), (29, 30), (31, 32),
   (1, 4), (2, 5), (3, 6), (7, 8), (9, 10)]

def negX (lm : Landmark) : Landmark := ⟨-lm.x, lm.y, lm.z, lm.visibility⟩

/-- One iteration of the swap loop in `mirrorPose` (the JS code swaps the two
entries through a temporary). -/
def swapPair (m : Pose) (pr : ℕ × ℕ) : Pose :=
  (m.set pr.1 (nth m pr.2)).set pr.2 (nth m pr.1)

/-- `mirrorPose(landmarks)` from poseNormalizer.js (the `!landmarks` null
check cannot fire for a list input and is dropped). -/
def mirrorPose (p : Pose) : Pose :=
  SWAP_PAIRS.foldl swapPair (p.map negX)

/-- The six scored body segments. -/
inductive Segment where
  | leftArm | rightArm | leftLeg | rightLeg | torso | head
deriving DecidableEq, Repr

/-- The fixed iteration order of `Object.entries(BODY_SEGMENTS)`. -/
def segList : List Segment :=
  [.leftArm, .rightArm, .leftLeg, .rightLeg, .torso, .head]

structure SegmentDef where
  pairs : List (ℕ × ℕ)
  label : String
  weight : ℝ

/-- `BODY_SEGMENTS` from poseSimilarity.js (emoji field omitted). -/
noncomputable def BODY_SEGMENTS : Segment → SegmentDef
  | .leftArm => ⟨[(11, 13), (13, 15)], "Left Arm", 1.5⟩
  | .rightArm => ⟨[(12, 14), (14, 16)], "Right Arm", 1.5⟩
  | .leftLeg => ⟨[(23, 25), (25, 27)], "Left Leg", 1.5⟩
  | .rightLeg => ⟨[(24, 26), (26, 28)], "Right Leg", 1.5⟩
  | .torso => ⟨[(11, 12), (11, 23), (12, 24), (23, 24)], "Torso", 1⟩
  | .head => ⟨[(0, 11), (0, 12)], "Head", 0.5⟩

structure Vec3 where
  x : ℝ
  y : ℝ
  z : ℝ

/-- `vecBetween(a, b)` from poseSimilarity.js. -/
def vecBetween (a b : Landmark) : Vec3 := ⟨b.x - a.x, b.y - a.y, b.z - a.z⟩

def dotV (v w : Vec3) : ℝ := v.x * w.x + v.y * w.y + v.z * w.z

noncomputable def magV (v : Vec3) : ℝ := Real.sqrt (v.x ^ 2 + v.y ^ 2 + v.z ^ 2)

/-- `cosineSim(v1, v2)` from poseSimilarity.js: a near-zero magnitude yields
similarity 0 rather than failing. -/
noncomputable def cosineSim (v1 v2 : Vec3) : ℝ :=
  if magV v1 < 0.0001 ∨ magV v2 < 0.0001 then 0
  else dotV v1 v2 / (magV v1 * magV v2)

/-- One iteration of the bone loop of `comparePoses`: skip the bone when the
minimum endpoint visibility is below 0.4, otherwise accumulate the cosine
similarity and the retained-bone count. -/
noncomputable def boneStep (rn un : Pose) (acc : ℝ × ℕ) (pr : ℕ × ℕ) : ℝ × ℕ :=
  let minVis := min (min (nth rn pr.1).visibility (nth rn pr.2).visibility)
    (min (nth un pr.1).visibility (nth un pr.2).visibility)
  if minVis < 0.4 then acc
  else (acc.1 + cosineSim (vecBetween (nth rn pr.1) (nth rn pr.2))
          (vecBetween (nth un pr.1) (nth un pr.2)),
        acc.2 + 1)

/-- JS `Math.round` (round half toward positive infinity). -/
noncomputable def jsRound (x : ℝ) : ℤ := ⌊x + 1 / 2⌋

/-- `Math.round(x * 10) / 10`: rounding to one decimal place. -/
noncomputable def jsRound10 (x : ℝ) : ℝ := (jsRound (x * 10) : ℝ) / 10

/-- The per-segment score of `comparePoses`: `null` when no bone was
retained, otherwise the clamped affine image of the mean cosine similarity. -/
noncomputable def segScoreOf (rn un : Pose) (s : Segment) : Option ℝ :=
  let acc := (BODY_SEGMENTS s).pairs.foldl (boneStep rn un) (0, 0)
  if acc.2 = 0 then none
  else some (max 0 (min 100 ((acc.1 / (acc.2 : ℝ) + 1) / 2 * 100)))

/-- One iteration of the weighted-average loop of `comparePoses`. -/
noncomputable def overallStep (scores : Segment → Option ℝ) (acc : ℝ × ℝ)
    (s : Segment) : ℝ × ℝ :=
  match scores s with
  | none => acc
  | some sc => (acc.1 + sc * (BODY_SEGMENTS s).weight, acc.2 + (BODY_SEGMENTS s).weight)

/-- The result of one comparison tick (the JS `timestamp` clock field is a
side effect and is omitted). -/
structure ComparisonResult where
  overall : ℝ
  segments : Segment → Option ℝ

/-- The body of `comparePoses` after both normalizations succeeded: the
per-segment scores and their weighted average (0 when no segment has data). -/
noncomputable def compareCore (rn un : Pose) : ComparisonResult :=
  let scores := fun s => segScoreOf rn un s
  let acc := segList.foldl (overallStep scores) (0, 0)
  ⟨if 0 < acc.2 then jsRound10 (acc.1 / acc.2) else 0, scores⟩

/-- `comparePoses(refLandmarks, userLandmarks)` from poseSimilarity.js. -/
noncomputable def comparePoses (refLm userLm : Pose) : Option ComparisonResult :=
  match normalizePose refLm, normalizePose userLm with
  | some rn, some un => some (compareCore rn un)
  | _, _ => none

/-! ### audioCoach.js -/

/-- `SEGMENT_TO_JOINTS[k].primary`: the (tip, base) landmark indices of each
segment's primary bone. -/
def primaryJoints : Segment → ℕ × ℕ
  | .leftArm => (15, 13)
  | .rightArm => (16, 14)
  | .leftLeg => (27, 25)
  | .rightLeg => (28, 26)
  | .torso => (11, 23)
  | .head => (0, 11)

/-- `SEGMENT_TO_JOINTS[k].label`. -/
def jointLabel : Segment → String
  | .leftArm => "left arm"
  | .rightArm => "right arm"
  | .leftLeg => "left leg"
  | .rightLeg => "right leg"
  | .torso => "torso"
  | .head => "head"

/-- `analyzeDifference(refLandmarks, userLandmarks, segmentKey)` from
audioCoach.js.  The JS `SEGMENT_TO_JOINTS[segmentKey]; if (!seg) return null`
lookup is modelled by taking an `Option Segment`; the `!ref || ...`
undefined checks on the four array reads become `List.get?` matches. -/
noncomputable def analyzeDifference (refLm userLm : Pose)
    (segmentKey : Option Segment) : Option String :=
  match segmentKey with
  | none => none
  | some k =>
    let tipIdx := (primaryJoints k).1
    let baseIdx := (primaryJoints k).2
    match refLm.get? tipIdx, userLm.get? tipIdx,
        refLm.get? baseIdx, userLm.get? baseIdx with
    | some ref, some user, some refBase, some userBase =>
      if ref.visibility < 0.4 ∨ user.visibility < 0.4 then none
      else
        let yDiff := (user.y - userBase.y) - (ref.y - refBase.y)
        let xDiff := (user.x - userBase.x) - (ref.x - refBase.x)
        let label := jointLabel k
        if |yDiff| > |xDiff| ∧ |yDiff| > 0.04 then
          some (if yDiff > 0 then "Raise your " ++ label ++ " higher"
                else "Lower your " ++ label ++ " a bit")
        else if |xDiff| > 0.04 then
          some (if xDiff > 0 then "Bring your " ++ label ++ " more to the left"
                else "Extend your " ++ label ++ " more to the right")
        else some ("Adjust your " ++ label ++ " position")
    | _, _, _, _ => none

/-- The mutable module state of audioCoach.js. -/
structure CoachState where
  lastSpeakTime : ℝ
  lastSpokenSegment : Option Segment
  enabled : Bool

/-- One call's inputs to `generateVoiceCue` (with `Date.now()` made an
explicit `now` argument). -/
structure CoachCall where
  now : ℝ
  comparison : Option ComparisonResult
  refLm : Option Pose
  userLm : Option Pose
  posecodeVoiceCue : Option String

/-- An utterance: its time, the segment it names (`none` for the praise
message) and its text. -/
structure Emission where
  time : ℝ
  named : Option Segment
  msg : String

/-- The worst-segment scan of `generateVoiceCue`: fold over the segment
entries starting from `(null, 100)`, keeping the first strict minimum. -/
noncomputable def worstOf (segs : Segment → Option ℝ) :
    Option Segment × ℝ :=
  segList.foldl (fun acc k =>
    match segs k with
    | none => acc
    | some sc => if sc < acc.2 then (some k, sc) else acc) (none, 100)

/-- `generateVoiceCue(comparison, refLandmarks, userLandmarks,
posecodeVoiceCue)` from audioCoach.js as a state transformer, returning the
new state and the utterance passed to `speak` (if any).  The JS
`posecodeVoiceCue || null` treats an empty string as absent. -/
noncomputable def generateVoiceCue (st : CoachState) (c : CoachCall) :
    CoachState × Option Emission :=
  if ¬st.enabled then (st, none) else
  match c.comparison with
  | none => (st, none)
  | some comparison =>
    if c.now - st.lastSpeakTime < 4000 then (st, none) else
    let w := worstOf comparison.segments
    let worstSeg := w.1
    let worstScore := w.2
    if 55 ≤ worstScore then
      if 85 ≤ comparison.overall ∧ 8000 < c.now - st.lastSpeakTime then
        ({ st with lastSpeakTime := c.now },
         some ⟨c.now, none, "Great form! You're nailing it!"⟩)
      else (st, none)
    else if worstSeg = st.lastSpokenSegment ∧ c.now - st.lastSpeakTime < 8000 then
      (st, none)
    else
      let cue := match c.posecodeVoiceCue with
        | some s => if s = "" then none else some s
        | none => none
      let message := match cue with
        | some m => m
        | none =>
          let geo := match c.refLm, c.userLm with
            | some r, some u => analyzeDifference r u worstSeg
            | _, _ => none
          match geo with
          | some m => m
          | none =>
            match worstSeg with
            | some k => "Watch your " ++ jointLabel k
            | none => "Watch your undefined"
      ({ lastSpeakTime := c.now, lastSpokenSegment := worstSeg,
         enabled := st.enabled },
       some ⟨c.now, worstSeg, message⟩)

/-- Run a sequence of `generateVoiceCue` calls, collecting the utterances. -/
noncomputable def coachRun (st : CoachState) : List CoachCall → List Emission
  | [] => []
  | c :: cs =>
    let r := generateVoiceCue st c
    (match r.2 with | some e => [e] | none => []) ++ coachRun r.1 cs

/-! ### poseDescriber.js -/

/-- `angle3(a, b, c)`: the 2-D interior angle at `b` in degrees, `null` when
either adjacent segment is shorter than 0.001. -/
noncomputable def angle3 (a b c : Landmark) : Option ℝ :=
  let dotp := (a.x - b.x) * (c.x - b.x) + (a.y - b.y) * (c.y - b.y)
  let magBA := Real.sqrt ((a.x - b.x) ^ 2 + (a.y - b.y) ^ 2)
  let magBC := Real.sqrt ((c.x - b.x) ^ 2 + (c.y - b.y) ^ 2)
  if magBA < 0.001 ∨ magBC < 0.001 then none
  else some (Real.arccos (max (-1) (min 1 (dotp / (magBA * magBC)))) * 180 / Real.pi)

/-- `vis(lm, i)` for a single index: `(lm[i]?.visibility || 0) >= 0.4`
(out-of-range indices read visibility 0 through `nth`). -/
noncomputable def visAt (lm : Pose) (i : ℕ) : Prop := 0.4 ≤ (nth lm i).visibility

noncomputable instance (lm : Pose) (i : ℕ) : Decidable (visAt lm i) := by
  unfold visAt; infer_instance

/-- A posecode `{segment, code, description}`. -/
structure Posecode where
  segment : Segment
  code : String
  desc : String
deriving DecidableEq

/-- The arm block of `extractPosecodes` for one side. -/
noncomputable def armCodes (lm : Pose) (isLeft : Bool) : List Posecode :=
  let S : ℕ := if isLeft then 11 else 12
  let E : ℕ := if isLeft then 13 else 14
  let W : ℕ := if isLeft then 15 else 16
  let H : ℕ := if isLeft then 23 else 24
  let label := if isLeft then "Left arm" else "Right arm"
  let seg := if isLeft then Segment.leftArm else Segment.rightArm
  if ¬(visAt lm S ∧ visAt lm E ∧ visAt lm W) then []
  else
    (match angle3 (nth lm S) (nth lm E) (nth lm W) with
      | none => []
      | some a =>
        if a < 60 then [⟨seg, "arm_tightly_bent", label ++ " is tightly bent at the elbow"⟩]
        else if a < 100 then [⟨seg, "arm_bent", label ++ " is bent at roughly 90°"⟩]
        else if a > 155 then [⟨seg, "arm_straight", label ++ " is fully extended"⟩]
        else [])
    ++ (if (nth lm W).y < (nth lm S).y - 0.05 then
          (if (nth lm W).y < (nth lm 0).y then
            [⟨seg, "arm_overhead", label ++ " is raised overhead"⟩]
          else [⟨seg, "arm_raised", label ++ " is raised above shoulder level"⟩])
        else if (nth lm W).y > (nth lm H).y then
          [⟨seg, "arm_dropped", label ++ " is hanging down by the side"⟩]
        else [])
    ++ (if |(nth lm W).x - (nth lm S).x| > 0.15 ∧ |(nth lm W).y - (nth lm S).y| < 0.08 then
          [⟨seg, "arm_extended_sideways", label ++ " is extended out to the side"⟩]
        else [])
    ++ (let midX := ((nth lm 11).x + (nth lm 12).x) / 2
        if isLeft then
          (if (nth lm W).x > midX + 0.05 then
            [⟨seg, "arm_crossed", label ++ " is crossed over the body"⟩] else [])
        else
          (if (nth lm W).x < midX - 0.05 then
            [⟨seg, "arm_crossed", label ++ " is crossed over the body"⟩] else []))

/-- The leg block of `extractPosecodes` for one side. -/
noncomputable def legCodes (lm : Pose) (isLeft : Bool) : List Posecode :=
  let H : ℕ := if isLeft then 23 else 24
  let K : ℕ := if isLeft then 25 else 26
  let A : ℕ := if isLeft then 27 else 28
  let label := if isLeft then "Left leg" else "Right leg"
  let seg := if isLeft then Segment.leftLeg else Segment.rightLeg
  if ¬(visAt lm H ∧ visAt lm K ∧ visAt lm A) then []
  else
    (match angle3 (nth lm H) (nth lm K) (nth lm A) with
      | none => []
      | some a =>
        if a < 90 then [⟨seg, "knee_deep_bend", label ++ " is deeply bent (plié/squat position)"⟩]
        else if a < 140 then [⟨seg, "knee_bent", label ++ " has a bent knee"⟩]
        else if a > 165 then [⟨seg, "leg_straight", label ++ " is straight and extended"⟩]
        else [])
    ++ (if (nth lm K).y < (nth lm H).y - 0.03 then
          [⟨seg, "leg_raised", label ++ " is raised with knee above hip level"⟩]
        else [])
    ++ (let hipMidX := ((nth lm 23).x + (nth lm 24).x) / 2
        if |(nth lm A).x - hipMidX| > 0.15 then
          [⟨seg, "leg_spread", label ++ " is extended outward (wide stance)"⟩]
        else [])

/-- The torso block of `extractPosecodes`. -/
noncomputable def torsoCodes (lm : Pose) : List Posecode :=
  if ¬(visAt lm 11 ∧ visAt lm 12 ∧ visAt lm 23 ∧ visAt lm 24) then []
  else
    let shoulderMidY := ((nth lm 11).y + (nth lm 12).y) / 2
    let hipMidY := ((nth lm 23).y + (nth lm 24).y) / 2
    let shoulderMidX := ((nth lm 11).x + (nth lm 12).x) / 2
    let hipMidX := ((nth lm 23).x + (nth lm 24).x) / 2
    let xTilt := shoulderMidX - hipMidX
    (if |xTilt| > 0.04 then
      [if xTilt > 0 then (⟨.torso, "torso_lean_right", "Torso is leaning to the right"⟩ : Posecode)
       else ⟨.torso, "torso_lean_left", "Torso is leaning to the left"⟩]
     else [])
    ++ (let shoulderTilt := (nth lm 11).y - (nth lm 12).y
        if |shoulderTilt| > 0.04 then
          [⟨.torso, "shoulders_tilted",
            "Shoulders are tilted (" ++
              (if shoulderTilt > 0 then "left shoulder lower" else "right shoulder lower") ++ ")"⟩]
        else [])
    ++ (if |hipMidY - shoulderMidY| < 0.08 then
          [⟨.torso, "torso_compact", "Body is in a compact/crouched position"⟩]
        else [])

/-- The head block of `extractPosecodes`. -/
noncomputable def headCodes (lm : Pose) : List Posecode :=
  if ¬(visAt lm 0 ∧ visAt lm 11 ∧ visAt lm 12) then []
  else
    let shoulderMidX := ((nth lm 11).x + (nth lm 12).x) / 2
    let shoulderMidY := ((nth lm 11).y + (nth lm 12).y) / 2
    let headTiltX := (nth lm 0).x - shoulderMidX
    (if |headTiltX| > 0.05 then
      [⟨.head, "head_tilted",
        "Head is tilted to the " ++ (if headTiltX > 0 then "right" else "left")⟩]
     else [])
    ++ (if (nth lm 0).y > shoulderMidY + 0.02 then
          [⟨.head, "head_dropped", "Head is dropped/looking down"⟩]
        else [])

/-- `extractPosecodes(landmarks)` from poseDescriber.js: `null` for fewer
than 33 landmarks, otherwise the posecodes pushed in source order. -/
noncomputable def extractPosecodes (lm : Pose) : Option (List Posecode) :=
  if lm.length < 33 then none
  else some (armCodes lm true ++ armCodes lm false ++
    legCodes lm true ++ legCodes lm false ++ torsoCodes lm ++ headCodes lm)

/-- The landmark indices actually guarded by the `vis(...)` check of each
block of `extractPosecodes` (arm: that side's shoulder/elbow/wrist; leg: that
side's hip/knee/ankle; torso: both shoulders and both hips; head: nose and
both shoulders). -/
noncomputable def visGuard (lm : Pose) : Segment → Prop
  | .leftArm => visAt lm 11 ∧ visAt lm 13 ∧ visAt lm 15
  | .rightArm => visAt lm 12 ∧ visAt lm 14 ∧ visAt lm 16
  | .leftLeg => visAt lm 23 ∧ visAt lm 25 ∧ visAt lm 27
  | .rightLeg => visAt lm 24 ∧ visAt lm 26 ∧ visAt lm 28
  | .torso => visAt lm 11 ∧ visAt lm 12 ∧ visAt lm 23 ∧ visAt lm 24
  | .head => visAt lm 0 ∧ visAt lm 11 ∧ visAt lm 12

/-! ### findWorstMoments.js -/

/-- One logged session sample: a comparison result plus the source poses and
the playback-time marker (fields that may be absent are `Option`s, matching
the JS truthiness / `!== undefined` checks). -/
structure Sample where
  overall : ℝ
  timestamp : ℝ
  videoTime : Option ℝ
  segments : Segment → Option ℝ
  refPose : Option Pose
  userPose : Option Pose

/-- The filter predicate of `findWorstMoments`:
`d.videoTime !== undefined && d.refPose && d.userPose`. -/
def isValidSample (d : Sample) : Prop :=
  d.videoTime.isSome ∧ d.refPose.isSome ∧ d.userPose.isSome

instance (d : Sample) : Decidable (isValidSample d) := by
  unfold isValidSample; infer_instance

/-- Reading `d.videoTime` on a sample that passed the filter. -/
def vtOf (d : Sample) : ℝ := d.videoTime.getD 0

/-- Stable insertion of `a` into `l` before the first element whose key is
not smaller (the result of a stable ascending sort, which is what
`Array.prototype.sort` with a numeric comparator computes). -/
noncomputable def insertAsc {α : Type} (key : α → ℝ) (a : α) : List α → List α
  | [] => [a]
  | b :: l => if key a ≤ key b then a :: b :: l else b :: insertAsc key a l

/-- Stable ascending sort by a real-valued key, modelling
`arr.sort((x, y) => key x - key y)`. -/
noncomputable def sortAsc {α : Type} (key : α → ℝ) : List α → List α
  | [] => []
  | a :: l => insertAsc key a (sortAsc key l)

/-- A rolling window record of `findWorstMoments`. -/
structure RollingWindow where
  index : ℕ
  avg : ℝ
  startVideoTime : ℝ
  endVideoTime : ℝ
  samples : List Sample

/-- A reported worst moment. -/
structure Moment where
  startVideoTime : ℝ
  endVideoTime : ℝ
  avgScore : ℝ
  samples : List Sample
  centerIndex : ℕ

/-- The window length in samples: `max(3, round(windowSec*1000 / avgIntervalMs))`.
(The JS division `0/0 → NaN` / `x/0 → Infinity` cases, which make the window
longer than the data and hence produce an empty result, do not arise for the
claims proved below; `ℝ` division by zero yields 0, hence window length 3.) -/
noncomputable def windowSamplesOf (validData : List Sample) (windowSec : ℝ) : ℕ :=
  let totalDurationMs := (validData.getLast?.map Sample.timestamp).getD 0 -
    (validData.head?.map Sample.timestamp).getD 0
  let avgSampleIntervalMs := totalDurationMs / (validData.length - 1 : ℝ)
  (max 3 (jsRound (windowSec * 1000 / avgSampleIntervalMs))).toNat

/-- The guard zone: `max(windowSamples, round(windowSamples * 1.5))`. -/
noncomputable def guardZoneOf (windowSamples : ℕ) : ℕ :=
  (max (windowSamples : ℤ) (jsRound ((windowSamples : ℝ) * 1.5))).toNat

/-- The rolling-average windows (step 1). -/
noncomputable def rollingAvgsOf (validData : List Sample) (windowSamples : ℕ) :
    List RollingWindow :=
  (List.range (validData.length + 1 - windowSamples)).map (fun i =>
    let window := (validData.drop i).take windowSamples
    { index := i
      avg := (window.map Sample.overall).sum / (window.length : ℝ)
      startVideoTime := (window.head?.map vtOf).getD 0
      endVideoTime := (window.getLast?.map vtOf).getD 0
      samples := window })

/-- The greedy non-overlapping selection loop of `findWorstMoments`
(`break` once `count` results are collected is modelled by skipping the
remaining candidates, which yields the same result list). -/
noncomputable def pickLoop (count windowSamples guardZone n : ℕ) :
    List RollingWindow → List RollingWindow × Finset ℕ → List RollingWindow × Finset ℕ
  | [], st => st
  | cand :: rest, (results, used) =>
    if count ≤ results.length then (results, used)
    else if (Finset.Ico cand.index (cand.index + windowSamples) ∩ used).Nonempty then
      pickLoop count windowSamples guardZone n rest (results, used)
    else
      pickLoop count windowSamples guardZone n rest
        (results ++ [cand],
         used ∪ Finset.Ico (cand.index - guardZone)
           (min n (cand.index + windowSamples + guardZone)))

def toMoment (windowSamples : ℕ) (c : RollingWindow) : Moment :=
  { startVideoTime := c.startVideoTime
    endVideoTime := c.endVideoTime
    avgScore := 0
    samples := c.samples
    centerIndex := c.index + windowSamples / 2 }

/-- `findWorstMoments(sessionData, count, windowSec)` from
findWorstMoments.js. -/
noncomputable def findWorstMoments (sessionData : List Sample) (count : ℕ)
    (windowSec : ℝ) : List Moment :=
  if sessionData.length < 5 then []
  else
    let validData := sessionData.filter (fun d => isValidSample d)
    if validData.length < 5 then []
    else
      let windowSamples := windowSamplesOf validData windowSec
      let rollingAvgs := rollingAvgsOf validData windowSamples
      if rollingAvgs.length = 0 then []
      else
        let sorted := sortAsc RollingWindow.avg rollingAvgs
        let guardZone := guardZoneOf windowSamples
        let picked := (pickLoop count windowSamples guardZone validData.length
          sorted ([], ∅)).1
        let results := picked.map (fun c =>
          { toMoment windowSamples c with avgScore := jsRound10 c.avg })
        sortAsc Moment.startVideoTime results

/-! ### feedbackEngine.js (analyzeTimeline) -/

/-- The chunk slicing of `analyzeTimeline`'s loop
(`for (i = 0; i < n; i += chunkSize) chunk = slice(i, i + chunkSize)`).
The `c = 0` case cannot arise (the caller passes `max 1 ⌊n/4⌋`) and returns
`[]` for totality. -/
def sliceChunks {α : Type} (c : ℕ) (l : List α) : List (List α) :=
  match l, c with
  | [], _ => []
  | _ :: _, 0 => []
  | a :: l', c' + 1 => (a :: l').take (c' + 1) :: sliceChunks (c' + 1) (l'.drop c')
termination_by l.length
decreasing_by simp; omega

/-- One timeline phase. -/
structure Phase where
  label : String
  avg : ℤ
  weakestSegment : Option String
  weakestScore : ℤ

/-- `segTotals[k]` for one chunk: the non-null scores of segment `k` in
chunk order. -/
def segTotalsOf (chunk : List Sample) (k : Segment) : List ℝ :=
  chunk.filterMap (fun d => d.segments k)

/-- The iteration order of `Object.entries(segTotals)`: segment keys in order
of first insertion (samples outer, the fixed segment order inner, skipping
null scores). -/
def segKeysOf (chunk : List Sample) : List Segment :=
  (chunk.flatMap (fun d => segList.filter (fun k => (d.segments k).isSome))).foldl
    (fun acc k => if k ∈ acc then acc else acc ++ [k]) []

/-- The per-chunk mean of one segment's non-null scores
(`vals.reduce(...) / vals.length`). -/
noncomputable def meanSeg (chunk : List Sample) (k : Segment) : ℝ :=
  (segTotalsOf chunk k).sum / ((segTotalsOf chunk k).length : ℝ)

/-- The weakest-segment scan of a chunk: starting from `(null, 100)`, keep the
first segment whose mean is a strict improvement. -/
noncomputable def weakestOf (chunk : List Sample) : Option Segment × ℝ :=
  (segKeysOf chunk).foldl (fun acc k =>
    if meanSeg chunk k < acc.2 then (some k, meanSeg chunk k) else acc) (none, 100)

/-- One phase of `analyzeTimeline` built from a chunk. -/
noncomputable def mkPhase (sessionData : List Sample) (chunk : List Sample) : Phase :=
  let startSec := jsRound (((chunk.head?.map Sample.timestamp).getD 0 -
    (sessionData.head?.map Sample.timestamp).getD 0) / 1000)
  let endSec := jsRound (((chunk.getLast?.map Sample.timestamp).getD 0 -
    (sessionData.head?.map Sample.timestamp).getD 0) / 1000)
  let w := weakestOf chunk
  { label := toString startSec ++ "s–" ++ toString endSec ++ "s"
    avg := jsRound ((chunk.map Sample.overall).sum / (chunk.length : ℝ))
    weakestSegment := w.1.map (fun k => (BODY_SEGMENTS k).label)
    weakestScore := jsRound w.2 }

/-- `analyzeTimeline(sessionData)` from feedbackEngine.js. -/
noncomputable def analyzeTimeline (sessionData : List Sample) : List Phase :=
  let chunkSize := max 1 (sessionData.length / 4)
  (sliceChunks chunkSize sessionData).map (mkPhase sessionData)

/-! ### Uniform similarity transforms (for the invariance claim) -/

/-- `x' = s*x + t` applied to one landmark (visibility unchanged). -/
noncomputable def tfLandmark (s tx ty tz : ℝ) (lm : Landmark) : Landmark :=
  ⟨s * lm.x + tx, s * lm.y + ty, s * lm.z + tz, lm.visibility⟩

/-- The transform applied to a whole pose. -/
noncomputable def tfPose (s tx ty tz : ℝ) (P : Pose) : Pose :=
  P.map (tfLandmark s tx ty tz)

/-- The left/right index swap realized by `mirrorPose`'s swap table. -/
def swapIdx : ℕ → ℕ
  | 1 => 4 | 4 => 1 | 2 => 5 | 5 => 2 | 3 => 6 | 6 => 3 | 7 => 8 | 8 => 7
  | 9 => 10 | 10 => 9 | 11 => 12 | 12 => 11 | 13 => 14 | 14 => 13
  | 15 => 16 | 16 => 15 | 17 => 18 | 18 => 17 | 19 => 20 | 20 => 19
  | 21 => 22 | 22 => 21 | 23 => 24 | 24 => 23 | 25 => 26 | 26 => 25
  | 27 => 28 | 28 => 27 | 29 => 30 | 30 => 29 | 31 => 32 | 32 => 31
  | i => i

/-! ### Concrete test data -/

def L (x y z v : ℝ) : Landmark := ⟨x, y, z, v⟩

/-- A fully visible pose with hip midpoint at the origin, torso length 1 and
every scored bone a coordinate-axis vector of length 1 or 2. -/
noncomputable def P0 : Pose :=
  [L 0 (-1) 0 1, L 0 0 0 1, L 0 0 0 1, L 0 0 0 1, L 0 0 0 1,
   L 0 0 0 1, L 0 0 0 1, L 0 0 0 1, L 0 0 0 1, L 0 0 0 1,
   L 0 0 0 1, L 1 (-1) 0 1, L (-1) (-1) 0 1, L 2 (-1) 0 1, L (-2) (-1) 0 1,
   L 2 (-2) 0 1, L (-2) (-2) 0 1, L 0 0 0 1, L 0 0 0 1, L 0 0 0 1,
   L 0 0 0 1, L 0 0 0 1, L 0 0 0 1, L 1 0 0 1, L (-1) 0 0 1,
   L 1 1 0 1, L (-1) 1 0 1, L 1 2 0 1, L (-1) 2 0 1, L 0 0 0 1,
   L 0 0 0 1, L 0 0 0 1, L 0 0 0 1]

/-- `P0` with the left elbow moved onto the left shoulder (landmark 13 =
landmark 11), so the first left-arm bone is a zero vector. -/
noncomputable def P1 : Pose := (P0.set 13 (L 1 (-1) 0 1)).set 15 (L 1 (-2) 0 1)

/-- `P0` translated by `(1, 2, 3)`. -/
noncomputable def P2 : Pose := tfPose 1 1 2 3 P0

/-- `P0` with every visibility forced to 0. -/
noncomputable def Pv : Pose := P0.map (fun lm => ⟨lm.x, lm.y, lm.z, 0⟩)

/-- A pose whose only visible landmarks are the left shoulder (11), left
elbow (13) and left wrist (15); the left hip (23) has visibility 0 but a
y-coordinate above the wrist, so the left-arm rules read it. -/
noncomputable def P7 : Pose :=
  [L 0 0 0 0, L 0 0 0 0, L 0 0 0 0, L 0 0 0 0, L 0 0 0 0,
   L 0 0 0 0, L 0 0 0 0, L 0 0 0 0, L 0 0 0 0, L 0 0 0 0,
   L 0 0 0 0, L 0 0 0 1, L 0 0 0 0, L 0 0 0 1, L 0 0 0 0,
   L 1 1 0 1, L 0 0 0 0, L 0 0 0 0, L 0 0 0 0, L 0 0 0 0,
   L 0 0 0 0, L 0 0 0 0, L 0 0 0 0, L 0 (1/2) 0 0, L 0 0 0 0,
   L 0 0 0 0, L 0 0 0 0, L 0 0 0 0, L 0 0 0 0, L 0 0 0 0,
   L 0 0 0 0, L 0 0 0 0, L 0 0 0 0]

/-- `P0` with the left elbow's (landmark 13, the left arm's primary-bone
base) visibility set to 0. -/
noncomputable def P8 : Pose := P0.set 13 (L 2 (-1) 0 0)

/-- A session sample with no video time, no poses and no segment data. -/
noncomputable def sample0 : Sample :=
  ⟨0, 0, none, fun _ => none, none, none⟩

/-- Five invalid samples: enough entries, but none carries a video time. -/
noncomputable def dataTiny : List Sample := List.replicate 5 sample0

/-- Five samples (for the timeline counterexample). -/
noncomputable def data5 : List Sample := List.replicate 5 sample0

/-- A comparison whose only scored segment is the left arm, at 30. -/
noncomputable def comp30 : ComparisonResult :=
  ⟨30, fun s => if s = Segment.leftArm then some 30 else none⟩

/-- Two voice-cue calls 4 s apart, both with left arm worst at 30. -/
noncomputable def coachCalls : List CoachCall :=
  [⟨5000, some comp30, none, none, none⟩, ⟨9000, some comp30, none, none, none⟩]

/-- The initial audio-coach state (after `resetAudioCoach`). -/
noncomputable def coachState0 : CoachState := ⟨0, none, true⟩

/-! ## Basic lemmas -/

theorem Landmark.ext_mk (a b : Landmark) (hx : a.x = b.x) (hy : a.y = b.y)
    (hz : a.z = b.z) (hv : a.visibility = b.visibility) : a = b := by
  cases a; cases b; simp_all

theorem nth_cons_zero (a : Landmark) (l : Pose) : nth (a :: l) 0 = a := rfl

theorem nth_cons_succ (a : Landmark) (l : Pose) (n : ℕ) :
    nth (a :: l) (n + 1) = nth l n := rfl

theorem nth_map (f : Landmark → Landmark) :
    ∀ (l : Pose) (n : ℕ), n < l.length → nth (l.map f) n = f (nth l n)
  | a :: l, 0, _ => rfl
  | a :: l, n + 1, h => nth_map f l n (by simpa using h)

theorem nth_mem : ∀ (l : Pose) (n : ℕ), n < l.length → nth l n ∈ l
  | a :: l, 0, _ => List.mem_cons_self a l
  | a :: l, n + 1, h => List.mem_cons_of_mem a (nth_mem l n (by simpa using h))

theorem jsRound_eq (x : ℝ) (n : ℤ) (h1 : (n : ℝ) ≤ x + 1 / 2)
    (h2 : x + 1 / 2 < n + 1) : jsRound x = n := by
  unfold jsRound
  exact Int.floor_eq_iff.mpr ⟨h1, by exact_mod_cast h2⟩

theorem sqrt_four : Real.sqrt 4 = 2 := by
  rw [show (4 : ℝ) = 2 ^ 2 by norm_num, Real.sqrt_sq (by norm_num)]

theorem torsoLen_nonneg (p : Pose) : 0 ≤ torsoLenOf p := Real.sqrt_nonneg _

theorem normalizePose_eq_none_iff (P : Pose) :
    normalizePose P = none ↔ P.length < 33 ∨ torsoLenOf P < 0.001 := by
  unfold normalizePose
  split_ifs with h1 h2
  · simp [h1]
  · simp [h1, h2]
  · simp [h1, h2]

theorem normalizePose_eq_some_iff (P Q : Pose) :
    normalizePose P = some Q ↔
      33 ≤ P.length ∧ 0.001 ≤ torsoLenOf P ∧ Q = P.map (normFun P) := by
  unfold normalizePose
  split_ifs with h1 h2
  · refine iff_of_false (by simp) ?_
    rintro ⟨h33, -, -⟩
    omega
  · refine iff_of_false (by simp) ?_
    rintro ⟨-, ht, -⟩
    linarith
  · rw [Option.some_inj]
    constructor
    · intro h
      exact ⟨by omega, by linarith, h.symm⟩
    · rintro ⟨-, -, h⟩
      exact h.symm

/-- `normFun` carries visibility through. -/
theorem normFun_visibility (P : Pose) (lm : Landmark) :
    (normFun P lm).visibility = lm.visibility := rfl

/-- `normFun` commutes with `midpointLm`. -/
theorem midpointLm_normFun (P : Pose) (u v : Landmark) :
    midpointLm (normFun P u) (normFun P v) = normFun P (midpointLm u v) := by
  unfold midpointLm normFun
  refine Landmark.ext_mk _ _ ?_ ?_ ?_ rfl <;> · simp only; ring

/-- Distances scale by `1 / torsoLen` under `normFun`. -/
theorem distance_normFun (P : Pose) (u v : Landmark) :
    distance (normFun P u) (normFun P v) = distance u v / torsoLenOf P := by
  unfold distance normFun
  simp only
  have hc : ∀ a b m t : ℝ, (a - m) / t - (b - m) / t = (a - b) / t := by
    intro a b m t; ring
  rw [hc, hc, hc]
  rw [div_pow, div_pow, div_pow, div_add_div_same, div_add_div_same]
  rw [Real.sqrt_div (by positivity) _]
  rw [Real.sqrt_sq (torsoLen_nonneg P)]

theorem midHipOf_map_normFun (P : Pose) (h33 : 33 ≤ P.length) :
    midHipOf (P.map (normFun P)) = normFun P (midHipOf P) := by
  unfold midHipOf
  rw [nth_map _ _ _ (by omega), nth_map _ _ _ (by omega), midpointLm_normFun]

theorem midShoulderOf_map_normFun (P : Pose) (h33 : 33 ≤ P.length) :
    midShoulderOf (P.map (normFun P)) = normFun P (midShoulderOf P) := by
  unfold midShoulderOf
  rw [nth_map _ _ _ (by omega), nth_map _ _ _ (by omega), midpointLm_normFun]

/-- The torso length of a normalized pose is exactly 1. -/
theorem torsoLen_of_normalized (P : Pose) (h33 : 33 ≤ P.length)
    (ht : 0.001 ≤ torsoLenOf P) : torsoLenOf (P.map (normFun P)) = 1 := by
  have htpos : 0 < torsoLenOf P := by linarith
  unfold torsoLenOf
  rw [midHipOf_map_normFun P h33, midShoulderOf_map_normFun P h33, distance_normFun]
  exact div_self (ne_of_gt htpos)

/-- The hip midpoint of a normalized pose sits at the origin. -/
theorem midHip_of_normalized (P : Pose) (h33 : 33 ≤ P.length) :
    (midHipOf (P.map (normFun P))).x = 0 ∧ (midHipOf (P.map (normFun P))).y = 0 ∧
      (midHipOf (P.map (normFun P))).z = 0 := by
  rw [midHipOf_map_normFun P h33]
  unfold normFun
  simp only
  refine ⟨?_, ?_, ?_⟩ <;> rw [sub_self, zero_div]

/-! ## Claim C3: normalization is idempotent -/

/-- C3 (confirmed): for every pose on which `normalizePose` succeeds,
re-normalizing the output returns the output itself, exactly (coordinates and
visibilities unchanged). -/
theorem claim_C3_normalize_idempotent (P Q : Pose) (h : normalizePose P = some Q) :
    normalizePose Q = some Q := by
  obtain ⟨h33, ht, hQ⟩ := (normalizePose_eq_some_iff P Q).mp h
  subst hQ
  rw [normalizePose_eq_some_iff]
  refine ⟨by simpa using h33, ?_, ?_⟩
  · rw [torsoLen_of_normalized P h33 ht]
    norm_num
  · have hid : ∀ lm : Landmark, normFun (P.map (normFun P)) lm = lm := by
      intro lm
      obtain ⟨hx, hy, hz⟩ := midHip_of_normalized P h33
      have ht1 := torsoLen_of_normalized P h33 ht
      generalize hQ : P.map (normFun P) = Q at hx hy hz ht1 ⊢
      unfold normFun
      rw [hx, hy, hz, ht1]
      refine Landmark.ext_mk _ _ ?_ ?_ ?_ rfl <;> simp
    calc P.map (normFun P) = (P.map (normFun P)).map id := (List.map_id _).symm
      _ = (P.map (normFun P)).map (normFun (P.map (normFun P))) :=
          List.map_congr_left (fun lm _ => (hid lm).symm)

/-! ## Evaluation of the concrete pose `P0` -/

theorem P0_length : P0.length = 33 := rfl

theorem midHipOf_P0 : midHipOf P0 = L 0 0 0 1 := by
  unfold midHipOf
  rw [show nth P0 23 = L 1 0 0 1 from rfl, show nth P0 24 = L (-1) 0 0 1 from rfl]
  unfold midpointLm L
  refine Landmark.ext_mk _ _ ?_ ?_ ?_ ?_ <;> norm_num

theorem midShoulderOf_P0 : midShoulderOf P0 = L 0 (-1) 0 1 := by
  unfold midShoulderOf
  rw [show nth P0 11 = L 1 (-1) 0 1 from rfl,
    show nth P0 12 = L (-1) (-1) 0 1 from rfl]
  unfold midpointLm L
  refine Landmark.ext_mk _ _ ?_ ?_ ?_ ?_ <;> norm_num

theorem torsoLenOf_P0 : torsoLenOf P0 = 1 := by
  unfold torsoLenOf
  rw [midHipOf_P0, midShoulderOf_P0]
  unfold distance L
  simp only
  norm_num

theorem normFun_P0 (lm : Landmark) : normFun P0 lm = lm := by
  unfold normFun
  rw [midHipOf_P0, torsoLenOf_P0]
  refine Landmark.ext_mk _ _ ?_ ?_ ?_ rfl <;> · unfold L; simp

theorem normalizePose_P0 : normalizePose P0 = some P0 := by
  rw [normalizePose_eq_some_iff]
  refine ⟨le_of_eq P0_length.symm, by rw [torsoLenOf_P0]; norm_num, ?_⟩
  calc P0 = P0.map id := (List.map_id _).symm
    _ = P0.map (normFun P0) := List.map_congr_left (fun lm _ => (normFun_P0 lm).symm)

/-! ## Similarity-transform lemmas (claim C4) -/

theorem tfLandmark_visibility (s tx ty tz : ℝ) (lm : Landmark) :
    (tfLandmark s tx ty tz lm).visibility = lm.visibility := rfl

theorem tfPose_length (s tx ty tz : ℝ) (P : Pose) :
    (tfPose s tx ty tz P).length = P.length := List.length_map _ _

theorem midpointLm_tf (s tx ty tz : ℝ) (u v : Landmark) :
    midpointLm (tfLandmark s tx ty tz u) (tfLandmark s tx ty tz v) =
      tfLandmark s tx ty tz (midpointLm u v) := by
  unfold midpointLm tfLandmark
  refine Landmark.ext_mk _ _ ?_ ?_ ?_ rfl <;> · simp only; ring

theorem distance_tf (s tx ty tz : ℝ) (hs : 0 ≤ s) (u v : Landmark) :
    distance (tfLandmark s tx ty tz u) (tfLandmark s tx ty tz v) =
      s * distance u v := by
  unfold distance tfLandmark
  simp only
  have hc : ∀ a b t' : ℝ, s * a + t' - (s * b + t') = s * (a - b) := by
    intro a b t'; ring
  rw [hc, hc, hc]
  rw [show (s * (u.x - v.x)) ^ 2 + (s * (u.y - v.y)) ^ 2 + (s * (u.z - v.z)) ^ 2 =
    s ^ 2 * ((u.x - v.x) ^ 2 + (u.y - v.y) ^ 2 + (u.z - v.z) ^ 2) by ring]
  rw [Real.sqrt_mul (sq_nonneg s), Real.sqrt_sq hs]

theorem midHipOf_tf (s tx ty tz : ℝ) (P : Pose) (h33 : 33 ≤ P.length) :
    midHipOf (tfPose s tx ty tz P) = tfLandmark s tx ty tz (midHipOf P) := by
  unfold midHipOf tfPose
  rw [nth_map _ _ _ (by omega), nth_map _ _ _ (by omega), midpointLm_tf]

theorem midShoulderOf_tf (s tx ty tz : ℝ) (P : Pose) (h33 : 33 ≤ P.length) :
    midShoulderOf (tfPose s tx ty tz P) = tfLandmark s tx ty tz (midShoulderOf P) := by
  unfold midShoulderOf tfPose
  rw [nth_map _ _ _ (by omega), nth_map _ _ _ (by omega), midpointLm_tf]

theorem torsoLenOf_tf (s tx ty tz : ℝ) (P : Pose) (h33 : 33 ≤ P.length)
    (hs : 0 ≤ s) : torsoLenOf (tfPose s tx ty tz P) = s * torsoLenOf P := by
  unfold torsoLenOf
  rw [midHipOf_tf s tx ty tz P h33, midShoulderOf_tf s tx ty tz P h33,
    distance_tf s tx ty tz hs]

/-- Normalization absorbs a uniform positive scale-and-translate, provided the
transformed torso length stays at or above the 0.001 degeneracy cutoff. -/
theorem normalizePose_tfPose (s tx ty tz : ℝ) (hs : 0 < s) (P Q : Pose)
    (h : normalizePose P = some Q) (hscale : 0.001 ≤ s * torsoLenOf P) :
    normalizePose (tfPose s tx ty tz P) = some Q := by
  obtain ⟨h33, ht, hQ⟩ := (normalizePose_eq_some_iff P Q).mp h
  rw [normalizePose_eq_some_iff]
  refine ⟨by rw [tfPose_length]; exact h33,
    by rw [torsoLenOf_tf s tx ty tz P h33 hs.le]; exact hscale, ?_⟩
  subst hQ
  unfold tfPose
  rw [List.map_map]
  apply List.map_congr_left
  intro lm _
  show normFun P lm = normFun (tfPose s tx ty tz P) (tfLandmark s tx ty tz lm)
  have hmh := midHipOf_tf s tx ty tz P h33
  have htl := torsoLenOf_tf s tx ty tz P h33 hs.le
  generalize hT : tfPose s tx ty tz P = T at hmh htl
  unfold normFun
  rw [hmh, htl]
  unfold tfLandmark
  have h1 : ∀ a m c : ℝ, s * a + c - (s * m + c) = s * (a - m) := by
    intro a m c; ring
  refine Landmark.ext_mk _ _ ?_ ?_ ?_ rfl <;>
    · simp only
      rw [h1, mul_div_mul_left _ _ (ne_of_gt hs)]

/-! ## comparePoses reduction lemmas -/

theorem comparePoses_eq_some_core (r u rn un : Pose) (h1 : normalizePose r = some rn)
    (h2 : normalizePose u = some un) :
    comparePoses r u = some (compareCore rn un) := by
  unfold comparePoses
  rw [h1, h2]

theorem comparePoses_none_left (r u : Pose) (h : normalizePose r = none) :
    comparePoses r u = none := by
  unfold comparePoses
  rw [h]

theorem comparePoses_none_right (r u : Pose) (h : normalizePose u = none) :
    comparePoses r u = none := by
  unfold comparePoses
  rw [h]
  cases normalizePose r <;> rfl

/-! ## Claim C1 machinery: self-comparison scores -/

theorem cosineSim_self (v : Vec3) (h : ¬ magV v < 0.0001) : cosineSim v v = 1 := by
  have hpos : (0 : ℝ) < magV v := lt_of_lt_of_le (by norm_num) (not_lt.mp h)
  unfold cosineSim
  rw [if_neg (by simp only [or_self]; exact h)]
  have hd : dotV v v = magV v * magV v := by
    unfold dotV magV
    rw [Real.mul_self_sqrt (by positivity)]
    ring
  rw [hd, div_self (mul_pos hpos hpos).ne']

theorem pairs_lt (s : Segment) : ∀ pr ∈ (BODY_SEGMENTS s).pairs, pr.1 < 33 ∧ pr.2 < 33 := by
  cases s <;> · intro pr hpr; fin_cases hpr <;> exact ⟨by norm_num, by norm_num⟩

theorem boneFold_const_one (rn un : Pose) (pairs : List (ℕ × ℕ))
    (h : ∀ pr ∈ pairs,
      ¬ (min (min (nth rn pr.1).visibility (nth rn pr.2).visibility)
          (min (nth un pr.1).visibility (nth un pr.2).visibility) < 0.4) ∧
      cosineSim (vecBetween (nth rn pr.1) (nth rn pr.2))
        (vecBetween (nth un pr.1) (nth un pr.2)) = 1) :
    ∀ (t : ℝ) (k : ℕ), pairs.foldl (boneStep rn un) (t, k) =
      (t + pairs.length, k + pairs.length) := by
  induction pairs with
  | nil => intro t k; simp
  | cons pr ps ih =>
    intro t k
    rw [List.foldl_cons]
    have hpr := h pr (List.mem_cons_self pr ps)
    have hstep : boneStep rn un (t, k) pr = (t + 1, k + 1) := by
      unfold boneStep
      simp only
      rw [if_neg hpr.1, hpr.2]
    rw [hstep, ih (fun q hq => h q (List.mem_cons_of_mem pr hq)) (t + 1) (k + 1)]
    simp only [List.length_cons, Prod.mk.injEq]
    constructor
    · push_cast; ring
    · omega

theorem segScore_self_100 (Q : Pose) (hQv : ∀ i, i < 33 → 0.4 ≤ (nth Q i).visibility)
    (s : Segment)
    (hb : ∀ pr ∈ (BODY_SEGMENTS s).pairs,
      ¬ magV (vecBetween (nth Q pr.1) (nth Q pr.2)) < 0.0001) :
    segScoreOf Q Q s = some 100 := by
  have hall : ∀ pr ∈ (BODY_SEGMENTS s).pairs,
      ¬ (min (min (nth Q pr.1).visibility (nth Q pr.2).visibility)
          (min (nth Q pr.1).visibility (nth Q pr.2).visibility) < 0.4) ∧
      cosineSim (vecBetween (nth Q pr.1) (nth Q pr.2))
        (vecBetween (nth Q pr.1) (nth Q pr.2)) = 1 := by
    intro pr hpr
    obtain ⟨h1, h2⟩ := pairs_lt s pr hpr
    refine ⟨?_, cosineSim_self _ (hb pr hpr)⟩
    simp only [not_lt]
    exact le_min (le_min (hQv pr.1 h1) (hQv pr.2 h2))
      (le_min (hQv pr.1 h1) (hQv pr.2 h2))
  have hlen : 0 < (BODY_SEGMENTS s).pairs.length := by
    cases s <;> norm_num [BODY_SEGMENTS]
  unfold segScoreOf
  simp only
  rw [boneFold_const_one Q Q _ hall 0 0]
  rw [if_neg (by omega)]
  have hne : ((0 + (BODY_SEGMENTS s).pairs.length : ℕ) : ℝ) ≠ 0 := by
    rw [Nat.cast_ne_zero]; omega
  rw [zero_add]
  rw [show ((BODY_SEGMENTS s).pairs.length : ℝ) /
      (((0 + (BODY_SEGMENTS s).pairs.length : ℕ)) : ℝ) = 1 by
    rw [div_eq_one_iff_eq hne]; push_cast; ring]
  norm_num

/-- Self-comparison scores 100 everywhere, provided every landmark is visible
and no normalized bone vector is (near-)zero. -/
theorem comparePoses_self_100 (P Q : Pose) (h : normalizePose P = some Q)
    (hv : ∀ i, i < 33 → 0.4 ≤ (nth P i).visibility)
    (hb : ∀ s : Segment, ∀ pr ∈ (BODY_SEGMENTS s).pairs,
      ¬ magV (vecBetween (nth Q pr.1) (nth Q pr.2)) < 0.0001) :
    comparePoses P P = some ⟨100, fun _ => some 100⟩ := by
  obtain ⟨h33, ht, hQ⟩ := (normalizePose_eq_some_iff P Q).mp h
  have hQv : ∀ i, i < 33 → 0.4 ≤ (nth Q i).visibility := by
    intro i hi
    rw [hQ, nth_map _ _ _ (by omega), normFun_visibility]
    exact hv i hi
  have hseg : ∀ s, segScoreOf Q Q s = some 100 :=
    fun s => segScore_self_100 Q hQv s (hb s)
  rw [comparePoses_eq_some_core P P Q Q h h, Option.some_inj]
  unfold compareCore
  simp only
  have hfold : segList.foldl (overallStep (fun s => segScoreOf Q Q s)) (0, 0) =
      ((750 : ℝ), (7.5 : ℝ)) := by
    simp only [segList, List.foldl, overallStep, hseg, BODY_SEGMENTS]
    norm_num
  rw [hfold]
  refine congrArg₂ ComparisonResult.mk ?_ (funext hseg)
  rw [if_pos (by norm_num), show (750 : ℝ) / 7.5 = 100 by norm_num]
  unfold jsRound10
  rw [jsRound_eq (100 * 10) 1000 (by norm_num) (by norm_num)]
  norm_num

/-! ## Concrete landmark reads -/

theorem nth_P0_0 : nth P0 0 = L 0 (-1) 0 1 := rfl
theorem nth_P0_11 : nth P0 11 = L 1 (-1) 0 1 := rfl
theorem nth_P0_12 : nth P0 12 = L (-1) (-1) 0 1 := rfl
theorem nth_P0_13 : nth P0 13 = L 2 (-1) 0 1 := rfl
theorem nth_P0_14 : nth P0 14 = L (-2) (-1) 0 1 := rfl
theorem nth_P0_15 : nth P0 15 = L 2 (-2) 0 1 := rfl
theorem nth_P0_16 : nth P0 16 = L (-2) (-2) 0 1 := rfl
theorem nth_P0_23 : nth P0 23 = L 1 0 0 1 := rfl
theorem nth_P0_24 : nth P0 24 = L (-1) 0 0 1 := rfl
theorem nth_P0_25 : nth P0 25 = L 1 1 0 1 := rfl
theorem nth_P0_26 : nth P0 26 = L (-1) 1 0 1 := rfl
theorem nth_P0_27 : nth P0 27 = L 1 2 0 1 := rfl
theorem nth_P0_28 : nth P0 28 = L (-1) 2 0 1 := rfl

theorem P0_vis_ge : ∀ i, i < 33 → 0.4 ≤ (nth P0 i).visibility := by
  intro i hi
  interval_cases i <;> · show (0.4 : ℝ) ≤ 1; norm_num

theorem P0_bones_ok : ∀ s : Segment, ∀ pr ∈ (BODY_SEGMENTS s).pairs,
    ¬ magV (vecBetween (nth P0 pr.1) (nth P0 pr.2)) < 0.0001 := by
  intro s pr hpr
  cases s <;> fin_cases hpr <;>
  · simp only [nth_P0_0, nth_P0_11, nth_P0_12, nth_P0_13, nth_P0_14, nth_P0_15,
      nth_P0_16, nth_P0_23, nth_P0_24, nth_P0_25, nth_P0_26, nth_P0_27, nth_P0_28,
      L, vecBetween, magV]
    norm_num [Real.sqrt_one, sqrt_four]

/-- Shared evaluation: comparing `P0` with itself scores 100 everywhere. -/
theorem comparePoses_P0 : comparePoses P0 P0 = some ⟨100, fun _ => some 100⟩ :=
  comparePoses_self_100 P0 P0 normalizePose_P0 P0_vis_ge P0_bones_ok

/-! ## Claim C1 -/

/-- C1 (amended, confirmed): if a 33-landmark pose normalizes successfully,
every landmark has visibility ≥ 0.4, and no bone of the normalized pose is a
(near-)zero vector, then `comparePoses(P, P)` yields overall = 100 and score
100 for all six segments.  (The zero-bone proviso is forced by the
counterexample below: `cosineSim` maps degenerate bones to 0, not 1.) -/
theorem claim_C1_self_compare_100 (P Q : Pose) (h : normalizePose P = some Q)
    (hv : ∀ i, i < 33 → 0.4 ≤ (nth P i).visibility)
    (hb : ∀ s : Segment, ∀ pr ∈ (BODY_SEGMENTS s).pairs,
      ¬ magV (vecBetween (nth Q pr.1) (nth Q pr.2)) < 0.0001) :
    comparePoses P P = some ⟨100, fun _ => some 100⟩ :=
  comparePoses_self_100 P Q h hv hb

theorem nth_P1_11 : nth P1 11 = L 1 (-1) 0 1 := rfl
theorem nth_P1_13 : nth P1 13 = L 1 (-1) 0 1 := rfl
theorem nth_P1_15 : nth P1 15 = L 1 (-2) 0 1 := rfl
theorem nth_P1_23 : nth P1 23 = L 1 0 0 1 := rfl
theorem nth_P1_24 : nth P1 24 = L (-1) 0 0 1 := rfl
theorem nth_P1_12 : nth P1 12 = L (-1) (-1) 0 1 := rfl

theorem midHipOf_P1 : midHipOf P1 = L 0 0 0 1 := by
  unfold midHipOf
  rw [nth_P1_23, nth_P1_24]
  unfold midpointLm L
  refine Landmark.ext_mk _ _ ?_ ?_ ?_ ?_ <;> norm_num

theorem midShoulderOf_P1 : midShoulderOf P1 = L 0 (-1) 0 1 := by
  unfold midShoulderOf
  rw [nth_P1_11, nth_P1_12]
  unfold midpointLm L
  refine Landmark.ext_mk _ _ ?_ ?_ ?_ ?_ <;> norm_num

theorem torsoLenOf_P1 : torsoLenOf P1 = 1 := by
  unfold torsoLenOf
  rw [midHipOf_P1, midShoulderOf_P1]
  unfold distance L
  simp only
  norm_num

theorem normFun_P1 (lm : Landmark) : normFun P1 lm = lm := by
  unfold normFun
  rw [midHipOf_P1, torsoLenOf_P1]
  refine Landmark.ext_mk _ _ ?_ ?_ ?_ rfl <;> · unfold L; simp

theorem normalizePose_P1 : normalizePose P1 = some P1 := by
  rw [normalizePose_eq_some_iff]
  refine ⟨le_of_eq (show (33 : ℕ) = P1.length from rfl),
    by rw [torsoLenOf_P1]; norm_num, ?_⟩
  calc P1 = P1.map id := (List.map_id _).symm
    _ = P1.map (normFun P1) := List.map_congr_left (fun lm _ => (normFun_P1 lm).symm)

/-- C1 (counterexample): `P1` is fully visible and normalizes successfully,
yet its left-arm self-comparison score is 75, not 100, because the
shoulder–elbow bone is a zero vector. -/
theorem claim_C1_counterexample :
    (∀ i, i < 33 → 0.4 ≤ (nth P1 i).visibility) ∧
    (comparePoses P1 P1).map (fun c => c.segments Segment.leftArm) =
      some (some 75) ∧
    (75 : ℝ) ≠ 100 := by
  have hstep1 : boneStep P1 P1 (0, 0) (11, 13) = (0, 1) := by
    unfold boneStep
    simp only [nth_P1_11, nth_P1_13, L]
    rw [if_neg (by norm_num)]
    norm_num [vecBetween, cosineSim, magV, dotV, Real.sqrt_zero]
  have hstep2 : boneStep P1 P1 (0, 1) (13, 15) = (1, 2) := by
    unfold boneStep
    simp only [nth_P1_13, nth_P1_15, L]
    rw [if_neg (by norm_num)]
    have hmag : magV (vecBetween (Landmark.mk 1 (-1) 0 1) (Landmark.mk 1 (-2) 0 1)) = 1 := by
      unfold magV vecBetween
      norm_num
    rw [show cosineSim (vecBetween (Landmark.mk 1 (-1) 0 1) (Landmark.mk 1 (-2) 0 1))
        (vecBetween (Landmark.mk 1 (-1) 0 1) (Landmark.mk 1 (-2) 0 1)) = 1 from by
      unfold cosineSim
      rw [if_neg (by rw [hmag]; norm_num), hmag]
      unfold dotV vecBetween
      norm_num]
    norm_num
  have hscore : segScoreOf P1 P1 Segment.leftArm = some 75 := by
    unfold segScoreOf
    simp only [BODY_SEGMENTS, List.foldl]
    rw [hstep1, hstep2]
    norm_num
  refine ⟨?_, ?_, by norm_num⟩
  · intro i hi
    interval_cases i <;> · show (0.4 : ℝ) ≤ 1; norm_num
  · rw [comparePoses_eq_some_core P1 P1 P1 P1 normalizePose_P1 normalizePose_P1]
    show some ((compareCore P1 P1).segments Segment.leftArm) = some (some 75)
    rw [show (compareCore P1 P1).segments Segment.leftArm =
      segScoreOf P1 P1 Segment.leftArm from rfl, hscore]

/-- C1 witness: the concrete pose `P0` satisfies all hypotheses and indeed
scores 100 everywhere against itself. -/
theorem claim_C1_witness : comparePoses P0 P0 = some ⟨100, fun _ => some 100⟩ :=
  claim_C1_self_compare_100 P0 P0 normalizePose_P0 P0_vis_ge P0_bones_ok

/-! ## Claim C4 -/

/-- C4 (amended, confirmed): applying `x ↦ s·x + t` (s > 0) to all landmarks
of both poses leaves the `comparePoses` output unchanged, provided the scaled
torso lengths stay at or above the 0.001 degeneracy cutoff (the
counterexample below shows the proviso is necessary). -/
theorem claim_C4_transform_invariance (r u : Pose) (c : ComparisonResult)
    (s tx ty tz : ℝ) (h : comparePoses r u = some c) (hs : 0 < s)
    (hr : 0.001 ≤ s * torsoLenOf r) (hu : 0.001 ≤ s * torsoLenOf u) :
    comparePoses (tfPose s tx ty tz r) (tfPose s tx ty tz u) = some c := by
  rcases hnr : normalizePose r with _ | rn
  · rw [comparePoses_none_left r u hnr] at h; cases h
  rcases hnu : normalizePose u with _ | un
  · rw [comparePoses_none_right r u hnu] at h; cases h
  rw [comparePoses_eq_some_core r u rn un hnr hnu] at h
  rw [comparePoses_eq_some_core _ _ rn un
    (normalizePose_tfPose s tx ty tz hs r rn hnr hr)
    (normalizePose_tfPose s tx ty tz hs u un hnu hu)]
  exact h

/-- C4 (counterexample): scaling `P0` by the positive factor 1/2000 shrinks
the torso below the 0.001 cutoff, so the transformed comparison returns
`none` while the original returns a result — the output is not invariant for
every positive scale. -/
theorem claim_C4_counterexample :
    comparePoses P0 P0 = some ⟨100, fun _ => some 100⟩ ∧
    (0 : ℝ) < 1 / 2000 ∧
    comparePoses (tfPose (1 / 2000) 0 0 0 P0) (tfPose (1 / 2000) 0 0 0 P0) = none := by
  refine ⟨comparePoses_P0, by norm_num, ?_⟩
  have hnone : normalizePose (tfPose (1 / 2000) 0 0 0 P0) = none := by
    rw [normalizePose_eq_none_iff]
    right
    rw [torsoLenOf_tf _ _ _ _ P0 (le_of_eq P0_length.symm) (by norm_num),
      torsoLenOf_P0]
    norm_num
  exact comparePoses_none_left _ _ hnone

/-- C4 witness: scaling `P0` by 2 and translating by (3, 5, 7) leaves the
self-comparison result unchanged. -/
theorem claim_C4_witness :
    comparePoses (tfPose 2 3 5 7 P0) (tfPose 2 3 5 7 P0) =
      some ⟨100, fun _ => some 100⟩ :=
  claim_C4_transform_invariance P0 P0 _ 2 3 5 7 comparePoses_P0 (by norm_num)
    (by rw [torsoLenOf_P0]; norm_num) (by rw [torsoLenOf_P0]; norm_num)

/-! ## Claim C9 -/

/-- C9 (confirmed): `comparePoses` returns `none` exactly when normalization
of one of its inputs fails; normalization fails exactly on fewer than 33
landmarks or torso length < 0.001; and a result whose segments are all `none`
has overall score the number 0, not `none`. -/
theorem claim_C9_error_conditions :
    (∀ r u : Pose, comparePoses r u = none ↔
      normalizePose r = none ∨ normalizePose u = none) ∧
    (∀ p : Pose, normalizePose p = none ↔ p.length < 33 ∨ torsoLenOf p < 0.001) ∧
    (∀ (r u : Pose) (c : ComparisonResult), comparePoses r u = some c →
      (∀ s, c.segments s = none) → c.overall = 0) := by
  refine ⟨?_, normalizePose_eq_none_iff, ?_⟩
  · intro r u
    constructor
    · intro h
      rcases hnr : normalizePose r with _ | rn
      · exact Or.inl rfl
      rcases hnu : normalizePose u with _ | un
      · exact Or.inr rfl
      rw [comparePoses_eq_some_core r u rn un hnr hnu] at h
      cases h
    · rintro (h | h)
      · exact comparePoses_none_left r u h
      · exact comparePoses_none_right r u h
  · intro r u c h hnone
    rcases hnr : normalizePose r with _ | rn
    · rw [comparePoses_none_left r u hnr] at h; cases h
    rcases hnu : normalizePose u with _ | un
    · rw [comparePoses_none_right r u hnu] at h; cases h
    rw [comparePoses_eq_some_core r u rn un hnr hnu, Option.some_inj] at h
    subst h
    have hsc : ∀ s, segScoreOf rn un s = none := fun s => hnone s
    have hfold : segList.foldl (overallStep (fun s => segScoreOf rn un s)) (0, 0) =
        ((0 : ℝ), (0 : ℝ)) := by
      simp only [segList, List.foldl, overallStep, hsc]
    show (compareCore rn un).overall = 0
    unfold compareCore
    simp only
    rw [hfold, if_neg (by norm_num)]

/-- C9 witness: the empty pose has fewer than 33 landmarks, so normalization
(and hence comparison) fails on it. -/
theorem claim_C9_witness : normalizePose ([] : Pose) = none :=
  (claim_C9_error_conditions.2.1 []).mpr (Or.inl (by norm_num))

theorem normalizePose_P2 : normalizePose P2 = some P0 := by
  unfold P2
  exact normalizePose_tfPose 1 1 2 3 (by norm_num) P0 P0 normalizePose_P0
    (by rw [torsoLenOf_P0]; norm_num)

/-- C3 witness: normalizing the translated pose `P2` produces `P0`, and
re-normalizing `P0` is a no-op. -/
theorem claim_C3_witness : normalizePose P0 = some P0 :=
  claim_C3_normalize_idempotent P2 P0 normalizePose_P2

/-! ## Claim C10: mirrorPose -/

theorem negX_negX (a : Landmark) : negX (negX a) = a := by
  cases a
  unfold negX
  simp

theorem get?_eq_some_nth : ∀ (l : Pose) (n : ℕ), n < l.length → l.get? n = some (nth l n)
  | _ :: _, 0, _ => rfl
  | _ :: l, n + 1, h => get?_eq_some_nth l n (by simpa using h)

theorem get?_eq_none_nth : ∀ (l : Pose) (n : ℕ), l.length ≤ n → l.get? n = none
  | [], _, _ => rfl
  | _ :: l, n + 1, h => get?_eq_none_nth l n (by simpa using h)

theorem ext_nth_33 (l1 l2 : Pose) (h1 : l1.length = 33) (h2 : l2.length = 33)
    (h : ∀ i, i < 33 → nth l1 i = nth l2 i) : l1 = l2 := by
  apply List.ext_get?
  intro n
  by_cases hn : n < 33
  · rw [get?_eq_some_nth l1 n (by omega), get?_eq_some_nth l2 n (by omega), h n hn]
  · rw [get?_eq_none_nth l1 n (by omega), get?_eq_none_nth l2 n (by omega)]


/-- `mirrorPose` on an explicit 33-element pose: negate x and apply the swap
table, one swap at a time. -/
theorem mirrorPose_explicit (a0 a1 a2 a3 a4 a5 a6 a7 a8 a9 a10 a11 a12 a13 a14 a15 a16 a17 a18 a19 a20 a21 a22 a23 a24 a25 a26 a27 a28 a29 a30 a31 a32 : Landmark) :
    mirrorPose [a0, a1, a2, a3, a4, a5, a6, a7, a8, a9, a10, a11, a12, a13, a14, a15, a16, a17, a18, a19, a20, a21, a22, a23, a24, a25, a26, a27, a28, a29, a30, a31, a32] =
      [negX a0, negX a4, negX a5, negX a6, negX a1, negX a2, negX a3, negX a8, negX a7, negX a10, negX a9, negX a12, negX a11, negX a14, negX a13, negX a16, negX a15, negX a18, negX a17, negX a20, negX a19, negX a22, negX a21, negX a24, negX a23, negX a26, negX a25, negX a28, negX a27, negX a30, negX a29, negX a32, negX a31] := by
  have s0 : List.map negX ([a0, a1, a2, a3, a4, a5, a6, a7, a8, a9, a10, a11, a12, a13, a14, a15, a16, a17, a18, a19, a20, a21, a22, a23, a24, a25, a26, a27, a28, a29, a30, a31, a32] : Pose) = [negX a0, negX a1, negX a2, negX a3, negX a4, negX a5, negX a6, negX a7, negX a8, negX a9, negX a10, negX a11, negX a12, negX a13, negX a14, negX a15, negX a16, negX a17, negX a18, negX a19, negX a20, negX a21, negX a22, negX a23, negX a24, negX a25, negX a26, negX a27, negX a28, negX a29, negX a30, negX a31, negX a32] := rfl
  have s1 : swapPair [negX a0, negX a1, negX a2, negX a3, negX a4, negX a5, negX a6, negX a7, negX a8, negX a9, negX a10, negX a11, negX a12, negX a13, negX a14, negX a15, negX a16, negX a17, negX a18, negX a19, negX a20, negX a21, negX a22, negX a23, negX a24, negX a25, negX a26, negX a27, negX a28, negX a29, negX a30, negX a31, negX a32] (11, 12) = [negX a0, negX a1, negX a2, negX a3, negX a4, negX a5, negX a6, negX a7, negX a8, negX a9, negX a10, negX a12, negX a11, negX a13, negX a14, negX a15, negX a16, negX a17, negX a18, negX a19, negX a20, negX a21, negX a22, negX a23, negX a24, negX a25, negX a26, negX a27, negX a28, negX a29, negX a30, negX a31, negX a32] := rfl
  have s2 : swapPair [negX a0, negX a1, negX a2, negX a3, negX a4, negX a5, negX a6, negX a7, negX a8, negX a9, negX a10, negX a12, negX a11, negX a13, negX a14, negX a15, negX a16, negX a17, negX a18, negX a19, negX a20, negX a21, negX a22, negX a23, negX a24, negX a25, negX a26, negX a27, negX a28, negX a29, negX a30, negX a31, negX a32] (13, 14) = [negX a0, negX a1, negX a2, negX a3, negX a4, negX a5, negX a6, negX a7, negX a8, negX a9, negX a10, negX a12, negX a11, negX a14, negX a13, negX a15, negX a16, negX a17, negX a18, negX a19, negX a20, negX a21, negX a22, negX a23, negX a24, negX a25, negX a26, negX a27, negX a28, negX a29, negX a30, negX a31, negX a32] := rfl
  have s3 : swapPair [negX a0, negX a1, negX a2, negX a3, negX a4, negX a5, negX a6, negX a7, negX a8, negX a9, negX a10, negX a12, negX a11, negX a14, negX a13, negX a15, negX a16, negX a17, negX a18, negX a19, negX a20, negX a21, negX a22, negX a23, negX a24, negX a25, negX a26, negX a27, negX a28, negX a29, negX a30, negX a31, negX a32] (15, 16) = [negX a0, negX a1, negX a2, negX a3, negX a4, negX a5, negX a6, negX a7, negX a8, negX a9, negX a10, negX a12, negX a11, negX a14, negX a13, negX a16, negX a15, negX a17, negX a18, negX a19, negX a20, negX a21, negX a22, negX a23, negX a24, negX a25, negX a26, negX a27, negX a28, negX a29, negX a30, negX a31, negX a32] := rfl
  have s4 : swapPair [negX a0, negX a1, negX a2, negX a3, negX a4, negX a5, negX a6, negX a7, negX a8, negX a9, negX a10, negX a12, negX a11, negX a14, negX a13, negX a16, negX a15, negX a17, negX a18, negX a19, negX a20, negX a21, negX a22, negX a23, negX a24, negX a25, negX a26, negX a27, negX a28, negX a29, negX a30, negX a31, negX a32] (17, 18) = [negX a0, negX a1, negX a2, negX a3, negX a4, negX a5, negX a6, negX a7, negX a8, negX a9, negX a10, negX a12, negX a11, negX a14, negX a13, negX a16, negX a15, negX a18, negX a17, negX a19, negX a20, negX a21, negX a22, negX a23, negX a24, negX a25, negX a26, negX a27, negX a28, negX a29, negX a30, negX a31, negX a32] := rfl
  have s5 : swapPair [negX a0, negX a1, negX a2, negX a3, negX a4, negX a5, negX a6, negX a7, negX a8, negX a9, negX a10, negX a12, negX a11, negX a14, negX a13, negX a16, negX a15, negX a18, negX a17, negX a19, negX a20, negX a21, negX a22, negX a23, negX a24, negX a25, negX a26, negX a27, negX a28, negX a29, negX a30, negX a31, negX a32] (19, 20) = [negX a0, negX a1, negX a2, negX a3, negX a4, negX a5, negX a6, negX a7, negX a8, negX a9, negX a10, negX a12, negX a11, negX a14, negX a13, negX a16, negX a15, negX a18, negX a17, negX a20, negX a19, negX a21, negX a22, negX a23, negX a24, negX a25, negX a26, negX a27, negX a28, negX a29, negX a30, negX a31, negX a32] := rfl
  have s6 : swapPair [negX a0, negX a1, negX a2, negX a3, negX a4, negX a5, negX a6, negX a7, negX a8, negX a9, negX a10, negX a12, negX a11, negX a14, negX a13, negX a16, negX a15, negX a18, negX a17, negX a20, negX a19, negX a21, negX a22, negX a23, negX a24, negX a25, negX a26, negX a27, negX a28, negX a29, negX a30, negX a31, negX a32] (21, 22) = [negX a0, negX a1, negX a2, negX a3, negX a4, negX a5, negX a6, negX a7, negX a8, negX a9, negX a10, negX a12, negX a11, negX a14, negX a13, negX a16, negX a15, negX a18, negX a17, negX a20, negX a19, negX a22, negX a21, negX a23, negX a24, negX a25, negX a26, negX a27, negX a28, negX a29, negX a30, negX a31, negX a32] := rfl
  have s7 : swapPair [negX a0, negX a1, negX a2, negX a3, negX a4, negX a5, negX a6, negX a7, negX a8, negX a9, negX a10, negX a12, negX a11, negX a14, negX a13, negX a16, negX a15, negX a18, negX a17, negX a20, negX a19, negX a22, negX a21, negX a23, negX a24, negX a25, negX a26, negX a27, negX a28, negX a29, negX a30, negX a31, negX a32] (23, 24) = [negX a0, negX a1, negX a2, negX a3, negX a4, negX a5, negX a6, negX a7, negX a8, negX a9, negX a10, negX a12, negX a11, negX a14, negX a13, negX a16, negX a15, negX a18, negX a17, negX a20, negX a19, negX a22, negX a21, negX a24, negX a23, negX a25, negX a26, negX a27, negX a28, negX a29, negX a30, negX a31, negX a32] := rfl
  have s8 : swapPair [negX a0, negX a1, negX a2, negX a3, negX a4, negX a5, negX a6, negX a7, negX a8, negX a9, negX a10, negX a12, negX a11, negX a14, negX a13, negX a16, negX a15, negX a18, negX a17, negX a20, negX a19, negX a22, negX a21, negX a24, negX a23, negX a25, negX a26, negX a27, negX a28, negX a29, negX a30, negX a31, negX a32] (25, 26) = [negX a0, negX a1, negX a2, negX a3, negX a4, negX a5, negX a6, negX a7, negX a8, negX a9, negX a10, negX a12, negX a11, negX a14, negX a13, negX a16, negX a15, negX a18, negX a17, negX a20, negX a19, negX a22, negX a21, negX a24, negX a23, negX a26, negX a25, negX a27, negX a28, negX a29, negX a30, negX a31, negX a32] := rfl
  have s9 : swapPair [negX a0, negX a1, negX a2, negX a3, negX a4, negX a5, negX a6, negX a7, negX a8, negX a9, negX a10, negX a12, negX a11, negX a14, negX a13, negX a16, negX a15, negX a18, negX a17, negX a20, negX a19, negX a22, negX a21, negX a24, negX a23, negX a26, negX a25, negX a27, negX a28, negX a29, negX a30, negX a31, negX a32] (27, 28) = [negX a0, negX a1, negX a2, negX a3, negX a4, negX a5, negX a6, negX a7, negX a8, negX a9, negX a10, negX a12, negX a11, negX a14, negX a13, negX a16, negX a15, negX a18, negX a17, negX a20, negX a19, negX a22, negX a21, negX a24, negX a23, negX a26, negX a25, negX a28, negX a27, negX a29, negX a30, negX a31, negX a32] := rfl
  have s10 : swapPair [negX a0, negX a1, negX a2, negX a3, negX a4, negX a5, negX a6, negX a7, negX a8, negX a9, negX a10, negX a12, negX a11, negX a14, negX a13, negX a16, negX a15, negX a18, negX a17, negX a20, negX a19, negX a22, negX a21, negX a24, negX a23, negX a26, negX a25, negX a28, negX a27, negX a29, negX a30, negX a31, negX a32] (29, 30) = [negX a0, negX a1, negX a2, negX a3, negX a4, negX a5, negX a6, negX a7, negX a8, negX a9, negX a10, negX a12, negX a11, negX a14, negX a13, negX a16, negX a15, negX a18, negX a17, negX a20, negX a19, negX a22, negX a21, negX a24, negX a23, negX a26, negX a25, negX a28, negX a27, negX a30, negX a29, negX a31, negX a32] := rfl
  have s11 : swapPair [negX a0, negX a1, negX a2, negX a3, negX a4, negX a5, negX a6, negX a7, negX a8, negX a9, negX a10, negX a12, negX a11, negX a14, negX a13, negX a16, negX a15, negX a18, negX a17, negX a20, negX a19, negX a22, negX a21, negX a24, negX a23, negX a26, negX a25, negX a28, negX a27, negX a30, negX a29, negX a31, negX a32] (31, 32) = [negX a0, negX a1, negX a2, negX a3, negX a4, negX a5, negX a6, negX a7, negX a8, negX a9, negX a10, negX a12, negX a11, negX a14, negX a13, negX a16, negX a15, negX a18, negX a17, negX a20, negX a19, negX a22, negX a21, negX a24, negX a23, negX a26, negX a25, negX a28, negX a27, negX a30, negX a29, negX a32, negX a31] := rfl
  have s12 : swapPair [negX a0, negX a1, negX a2, negX a3, negX a4, negX a5, negX a6, negX a7, negX a8, negX a9, negX a10, negX a12, negX a11, negX a14, negX a13, negX a16, negX a15, negX a18, negX a17, negX a20, negX a19, negX a22, negX a21, negX a24, negX a23, negX a26, negX a25, negX a28, negX a27, negX a30, negX a29, negX a32, negX a31] (1, 4) = [negX a0, negX a4, negX a2, negX a3, negX a1, negX a5, negX a6, negX a7, negX a8, negX a9, negX a10, negX a12, negX a11, negX a14, negX a13, negX a16, negX a15, negX a18, negX a17, negX a20, negX a19, negX a22, negX a21, negX a24, negX a23, negX a26, negX a25, negX a28, negX a27, negX a30, negX a29, negX a32, negX a31] := rfl
  have s13 : swapPair [negX a0, negX a4, negX a2, negX a3, negX a1, negX a5, negX a6, negX a7, negX a8, negX a9, negX a10, negX a12, negX a11, negX a14, negX a13, negX a16, negX a15, negX a18, negX a17, negX a20, negX a19, negX a22, negX a21, negX a24, negX a23, negX a26, negX a25, negX a28, negX a27, negX a30, negX a29, negX a32, negX a31] (2, 5) = [negX a0, negX a4, negX a5, negX a3, negX a1, negX a2, negX a6, negX a7, negX a8, negX a9, negX a10, negX a12, negX a11, negX a14, negX a13, negX a16, negX a15, negX a18, negX a17, negX a20, negX a19, negX a22, negX a21, negX a24, negX a23, negX a26, negX a25, negX a28, negX a27, negX a30, negX a29, negX a32, negX a31] := rfl
  have s14 : swapPair [negX a0, negX a4, negX a5, negX a3, negX a1, negX a2, negX a6, negX a7, negX a8, negX a9, negX a10, negX a12, negX a11, negX a14, negX a13, negX a16, negX a15, negX a18, negX a17, negX a20, negX a19, negX a22, negX a21, negX a24, negX a23, negX a26, negX a25, negX a28, negX a27, negX a30, negX a29, negX a32, negX a31] (3, 6) = [negX a0, negX a4, negX a5, negX a6, negX a1, negX a2, negX a3, negX a7, negX a8, negX a9, negX a10, negX a12, negX a11, negX a14, negX a13, negX a16, negX a15, negX a18, negX a17, negX a20, negX a19, negX a22, negX a21, negX a24, negX a23, negX a26, negX a25, negX a28, negX a27, negX a30, negX a29, negX a32, negX a31] := rfl
  have s15 : swapPair [negX a0, negX a4, negX a5, negX a6, negX a1, negX a2, negX a3, negX a7, negX a8, negX a9, negX a10, negX a12, negX a11, negX a14, negX a13, negX a16, negX a15, negX a18, negX a17, negX a20, negX a19, negX a22, negX a21, negX a24, negX a23, negX a26, negX a25, negX a28, negX a27, negX a30, negX a29, negX a32, negX a31] (7, 8) = [negX a0, negX a4, negX a5, negX a6, negX a1, negX a2, negX a3, negX a8, negX a7, negX a9, negX a10, negX a12, negX a11, negX a14, negX a13, negX a16, negX a15, negX a18, negX a17, negX a20, negX a19, negX a22, negX a21, negX a24, negX a23, negX a26, negX a25, negX a28, negX a27, negX a30, negX a29, negX a32, negX a31] := rfl
  have s16 : swapPair [negX a0, negX a4, negX a5, negX a6, negX a1, negX a2, negX a3, negX a8, negX a7, negX a9, negX a10, negX a12, negX a11, negX a14, negX a13, negX a16, negX a15, negX a18, negX a17, negX a20, negX a19, negX a22, negX a21, negX a24, negX a23, negX a26, negX a25, negX a28, negX a27, negX a30, negX a29, negX a32, negX a31] (9, 10) = [negX a0, negX a4, negX a5, negX a6, negX a1, negX a2, negX a3, negX a8, negX a7, negX a10, negX a9, negX a12, negX a11, negX a14, negX a13, negX a16, negX a15, negX a18, negX a17, negX a20, negX a19, negX a22, negX a21, negX a24, negX a23, negX a26, negX a25, negX a28, negX a27, negX a30, negX a29, negX a32, negX a31] := rfl
  unfold mirrorPose
  rw [s0, SWAP_PAIRS]
  simp only [List.foldl_cons, List.foldl_nil]
  rw [s1, s2, s3, s4, s5, s6, s7, s8, s9, s10, s11, s12, s13, s14, s15, s16]

theorem mirrorPose_involution_33 (a0 a1 a2 a3 a4 a5 a6 a7 a8 a9 a10 a11 a12 a13 a14 a15 a16 a17 a18 a19 a20 a21 a22 a23 a24 a25 a26 a27 a28 a29 a30 a31 a32 : Landmark) :
    mirrorPose (mirrorPose [a0, a1, a2, a3, a4, a5, a6, a7, a8, a9, a10, a11, a12, a13, a14, a15, a16, a17, a18, a19, a20, a21, a22, a23, a24, a25, a26, a27, a28, a29, a30, a31, a32]) = [a0, a1, a2, a3, a4, a5, a6, a7, a8, a9, a10, a11, a12, a13, a14, a15, a16, a17, a18, a19, a20, a21, a22, a23, a24, a25, a26, a27, a28, a29, a30, a31, a32] := by
  rw [mirrorPose_explicit, mirrorPose_explicit]
  simp only [negX_negX]

theorem eq_explicit_33 (P : Pose) (hP : P.length = 33) :
    P = [nth P 0, nth P 1, nth P 2, nth P 3, nth P 4, nth P 5, nth P 6, nth P 7, nth P 8, nth P 9, nth P 10, nth P 11, nth P 12, nth P 13, nth P 14, nth P 15, nth P 16, nth P 17, nth P 18, nth P 19, nth P 20, nth P 21, nth P 22, nth P 23, nth P 24, nth P 25, nth P 26, nth P 27, nth P 28, nth P 29, nth P 30, nth P 31, nth P 32] := by
  refine ext_nth_33 P _ hP ?_ ?_
  · rfl
  · intro i hi
    interval_cases i <;> rfl

/-- C10 (confirmed): on a 33-landmark pose, `mirrorPose` is an involution,
and each output landmark carries exactly the visibility of the landmark it
was swapped from. -/
theorem claim_C10_mirror_involution (P : Pose) (hP : P.length = 33) :
    mirrorPose (mirrorPose P) = P ∧
    ∀ i, i < 33 →
      (nth (mirrorPose P) i).visibility = (nth P (swapIdx i)).visibility := by
  have hexp := eq_explicit_33 P hP
  constructor
  · rw [hexp]
    apply mirrorPose_involution_33
  · intro i hi
    conv_lhs => rw [hexp, mirrorPose_explicit]
    interval_cases i <;> rfl

/-- C10 witness: the involution evaluated on the concrete pose `P0`. -/
theorem claim_C10_witness : mirrorPose (mirrorPose P0) = P0 :=
  (claim_C10_mirror_involution P0 P0_length).1


theorem analyzeDifference_isSome_iff (r u : Pose) (k : Segment) :
    (analyzeDifference r u (some k)).isSome ↔
      (∃ lt, r.get? (primaryJoints k).1 = some lt ∧ 0.4 ≤ lt.visibility) ∧
      (∃ ut, u.get? (primaryJoints k).1 = some ut ∧ 0.4 ≤ ut.visibility) ∧
      (r.get? (primaryJoints k).2).isSome ∧
      (u.get? (primaryJoints k).2).isSome := by
  unfold analyzeDifference
  rcases hr : r.get? (primaryJoints k).1 with _ | lt <;>
    rcases hu : u.get? (primaryJoints k).1 with _ | ut <;>
      rcases hrb : r.get? (primaryJoints k).2 with _ | lb <;>
        rcases hub : u.get? (primaryJoints k).2 with _ | ub <;>
          (rw [List.get?_eq_getElem?] at hr hu hrb hub) <;>
          simp [hr, hu, hrb, hub]
  constructor
  · intro h
    by_cases hvis : lt.visibility < 0.4 ∨ ut.visibility < 0.4
    · rw [if_pos hvis] at h
      simp at h
    · push_neg at hvis
      exact hvis
  · intro h
    rw [if_neg (by push_neg; exact h)]
    split_ifs <;> rfl

/-- C8 (amended, confirmed): `analyzeDifference` returns a cue exactly when
all four primary-bone landmark reads succeed and the tip landmark has
visibility ≥ 0.4 in both poses; the base landmarks' visibilities are never
checked. -/
theorem claim_C8_tip_visibility_gate (r u : Pose) (k : Segment) :
    (analyzeDifference r u (some k)).isSome ↔
      (∃ lt, r.get? (primaryJoints k).1 = some lt ∧ 0.4 ≤ lt.visibility) ∧
      (∃ ut, u.get? (primaryJoints k).1 = some ut ∧ 0.4 ≤ ut.visibility) ∧
      (r.get? (primaryJoints k).2).isSome ∧
      (u.get? (primaryJoints k).2).isSome :=
  analyzeDifference_isSome_iff r u k

/-- C8 (counterexample): in `P8` the left arm's primary-bone base landmark
(index 13) has visibility 0 in both poses, yet a directional cue is still
returned — the base visibility is not required. -/
theorem claim_C8_counterexample :
    (primaryJoints Segment.leftArm).2 = 13 ∧
    (nth P8 13).visibility < 0.4 ∧
    (analyzeDifference P8 P8 (some Segment.leftArm)).isSome = true := by
  refine ⟨rfl, by show (0 : ℝ) < 0.4; norm_num, ?_⟩
  rw [analyzeDifference_isSome_iff]
  refine ⟨⟨L 2 (-2) 0 1, rfl, by show (0.4 : ℝ) ≤ 1; norm_num⟩,
    ⟨L 2 (-2) 0 1, rfl, by show (0.4 : ℝ) ≤ 1; norm_num⟩, rfl, rfl⟩

/-- C8 witness: on the fully visible pose `P0` the cue is produced. -/
theorem claim_C8_witness :
    (analyzeDifference P0 P0 (some Segment.leftArm)).isSome :=
  (claim_C8_tip_visibility_gate P0 P0 Segment.leftArm).mpr
    ⟨⟨L 2 (-2) 0 1, rfl, by show (0.4 : ℝ) ≤ 1; norm_num⟩,
     ⟨L 2 (-2) 0 1, rfl, by show (0.4 : ℝ) ≤ 1; norm_num⟩, rfl, rfl⟩

/-! ## Claim C7: posecode visibility gating -/

theorem arccos_zero_deg : Real.arccos 0 * 180 / Real.pi = 90 := by
  rw [Real.arccos_zero]
  field_simp
  ring

theorem armCodes_guard (lm : Pose) (isLeft : Bool) :
    ∀ pc ∈ armCodes lm isLeft,
      visGuard lm pc.segment := by
  intro pc hpc
  cases isLeft
  · unfold armCodes at hpc
    simp at hpc
    obtain ⟨hg, hmem⟩ := hpc
    have hseg : pc.segment = Segment.rightArm := by
      rcases hmem with h | h | h | h
      · rcases hA : angle3 (nth lm 12) (nth lm 14) (nth lm 16) with _ | a <;> rw [hA] at h
        · simp at h
        · simp at h
          split_ifs at h <;> simp at h <;> (subst h; rfl)
      · split_ifs at h <;> simp at h <;> (subst h; rfl)
      · rw [h.2]
      · rw [h.2]
    rw [hseg]
    exact hg
  · unfold armCodes at hpc
    simp at hpc
    obtain ⟨hg, hmem⟩ := hpc
    have hseg : pc.segment = Segment.leftArm := by
      rcases hmem with h | h | h | h
      · rcases hA : angle3 (nth lm 11) (nth lm 13) (nth lm 15) with _ | a <;> rw [hA] at h
        · simp at h
        · simp at h
          split_ifs at h <;> simp at h <;> (subst h; rfl)
      · split_ifs at h <;> simp at h <;> (subst h; rfl)
      · rw [h.2]
      · rw [h.2]
    rw [hseg]
    exact hg

theorem legCodes_guard (lm : Pose) (isLeft : Bool) :
    ∀ pc ∈ legCodes lm isLeft, visGuard lm pc.segment := by
  intro pc hpc
  cases isLeft
  · unfold legCodes at hpc
    simp at hpc
    obtain ⟨hg, hmem⟩ := hpc
    have hseg : pc.segment = Segment.rightLeg := by
      rcases hmem with h | h | h
      · rcases hA : angle3 (nth lm 24) (nth lm 26) (nth lm 28) with _ | a <;> rw [hA] at h
        · simp at h
        · simp at h
          split_ifs at h <;> simp at h <;> (subst h; rfl)
      · rw [h.2]
      · rw [h.2]
    rw [hseg]
    exact hg
  · unfold legCodes at hpc
    simp at hpc
    obtain ⟨hg, hmem⟩ := hpc
    have hseg : pc.segment = Segment.leftLeg := by
      rcases hmem with h | h | h
      · rcases hA : angle3 (nth lm 23) (nth lm 25) (nth lm 27) with _ | a <;> rw [hA] at h
        · simp at h
        · simp at h
          split_ifs at h <;> simp at h <;> (subst h; rfl)
      · rw [h.2]
      · rw [h.2]
    rw [hseg]
    exact hg

theorem torsoCodes_guard (lm : Pose) :
    ∀ pc ∈ torsoCodes lm, visGuard lm pc.segment := by
  intro pc hpc
  unfold torsoCodes at hpc
  simp at hpc
  obtain ⟨hg, hmem⟩ := hpc
  have hseg : pc.segment = Segment.torso := by
    rcases hmem with h | h | h
    · obtain ⟨-, rfl⟩ := h
      split_ifs <;> rfl
    · rw [h.2]
    · rw [h.2]
  rw [hseg]
  exact hg

theorem headCodes_guard (lm : Pose) :
    ∀ pc ∈ headCodes lm, visGuard lm pc.segment := by
  intro pc hpc
  unfold headCodes at hpc
  simp at hpc
  obtain ⟨hg, hmem⟩ := hpc
  have hseg : pc.segment = Segment.head := by
    rcases hmem with h | h
    · rw [h.2]
    · rw [h.2]
  rw [hseg]
  exact hg

/-- C7 (amended, confirmed): a posecode is emitted only when the visibility
guard of its segment's block holds — the arm rules check that side's
shoulder/elbow/wrist, the leg rules that side's hip/knee/ankle, the torso
rules both shoulders and hips, the head rules nose and both shoulders.
Landmarks a rule reads beyond its block's guard (the hip for `arm_dropped`,
the nose for `arm_overhead`, the opposite shoulder for `arm_crossed`, the
opposite hip for `leg_spread`) are not required to be visible. -/
theorem claim_C7_visibility_gating (lm : Pose) (codes : List Posecode)
    (h : extractPosecodes lm = some codes) :
    ∀ pc ∈ codes, visGuard lm pc.segment := by
  intro pc hpc
  unfold extractPosecodes at h
  split_ifs at h with hlen
  obtain rfl := Option.some_inj.mp h
  simp only [List.mem_append] at hpc
  rcases hpc with ((((h1 | h2) | h3) | h4) | h5) | h6
  · exact armCodes_guard lm true pc h1
  · exact armCodes_guard lm false pc h2
  · exact legCodes_guard lm true pc h3
  · exact legCodes_guard lm false pc h4
  · exact torsoCodes_guard lm pc h5
  · exact headCodes_guard lm pc h6

theorem nth_P7_0 : nth P7 0 = L 0 0 0 0 := rfl
theorem nth_P7_11 : nth P7 11 = L 0 0 0 1 := rfl
theorem nth_P7_12 : nth P7 12 = L 0 0 0 0 := rfl
theorem nth_P7_13 : nth P7 13 = L 0 0 0 1 := rfl
theorem nth_P7_14 : nth P7 14 = L 0 0 0 0 := rfl
theorem nth_P7_15 : nth P7 15 = L 1 1 0 1 := rfl
theorem nth_P7_16 : nth P7 16 = L 0 0 0 0 := rfl
theorem nth_P7_23 : nth P7 23 = L 0 (1/2) 0 0 := rfl
theorem nth_P7_24 : nth P7 24 = L 0 0 0 0 := rfl
theorem nth_P7_25 : nth P7 25 = L 0 0 0 0 := rfl
theorem nth_P7_26 : nth P7 26 = L 0 0 0 0 := rfl
theorem nth_P7_27 : nth P7 27 = L 0 0 0 0 := rfl
theorem nth_P7_28 : nth P7 28 = L 0 0 0 0 := rfl

theorem angle3_degenerate :
    angle3 ⟨0, 0, 0, 1⟩ ⟨0, 0, 0, 1⟩ ⟨1, 1, 0, 1⟩ = none := by
  unfold angle3
  simp only
  split_ifs with hc
  · rfl
  · exfalso
    apply hc
    left
    norm_num [Real.sqrt_zero]

theorem armCodes_P7_true : armCodes P7 true =
    [⟨Segment.leftArm, "arm_dropped", "Left arm" ++ " is hanging down by the side"⟩,
     ⟨Segment.leftArm, "arm_crossed", "Left arm" ++ " is crossed over the body"⟩] := by
  unfold armCodes
  norm_num [nth_P7_0, nth_P7_11, nth_P7_12, nth_P7_13, nth_P7_15, nth_P7_23,
    visAt, L, angle3_degenerate]

theorem armCodes_P7_false : armCodes P7 false = [] := by
  unfold armCodes
  norm_num [visAt, nth_P7_12, L]

theorem legCodes_P7_true : legCodes P7 true = [] := by
  unfold legCodes
  norm_num [visAt, nth_P7_23, L]

theorem legCodes_P7_false : legCodes P7 false = [] := by
  unfold legCodes
  norm_num [visAt, nth_P7_24, L]

theorem torsoCodes_P7 : torsoCodes P7 = [] := by
  unfold torsoCodes
  norm_num [visAt, nth_P7_23, L]

theorem headCodes_P7 : headCodes P7 = [] := by
  unfold headCodes
  norm_num [visAt, nth_P7_0, L]

theorem extractPosecodes_P7 : extractPosecodes P7 = some
    [⟨Segment.leftArm, "arm_dropped", "Left arm" ++ " is hanging down by the side"⟩,
     ⟨Segment.leftArm, "arm_crossed", "Left arm" ++ " is crossed over the body"⟩] := by
  unfold extractPosecodes
  rw [if_neg (by norm_num [show P7.length = 33 from rfl])]
  rw [armCodes_P7_true, armCodes_P7_false, legCodes_P7_true, legCodes_P7_false,
    torsoCodes_P7, headCodes_P7]
  simp

/-- C7 (counterexample): in `P7` the left hip (landmark 23) has visibility 0,
yet the `arm_dropped` rule — which reads the hip's y-coordinate — still fires
(and `arm_crossed` fires although the right shoulder it reads is also
invisible): a rule is not skipped when a landmark it reads outside its
block's guard is below 0.4. -/
theorem claim_C7_counterexample :
    (nth P7 23).visibility < 0.4 ∧ (nth P7 12).visibility < 0.4 ∧
    extractPosecodes P7 = some
      [⟨Segment.leftArm, "arm_dropped", "Left arm" ++ " is hanging down by the side"⟩,
       ⟨Segment.leftArm, "arm_crossed", "Left arm" ++ " is crossed over the body"⟩] :=
  ⟨by show (0 : ℝ) < 0.4; norm_num, by show (0 : ℝ) < 0.4; norm_num,
   extractPosecodes_P7⟩

/-- C7 witness: the gating theorem applied to the `arm_dropped` posecode of
`P7` yields the left-arm block guard. -/
theorem claim_C7_witness : visGuard P7 Segment.leftArm :=
  claim_C7_visibility_gating P7 _ extractPosecodes_P7
    ⟨Segment.leftArm, "arm_dropped", "Left arm" ++ " is hanging down by the side"⟩
    (by simp)

/-! ## Claim C5: voice-cue cooldowns -/

theorem generateVoiceCue_gap_spec (st : CoachState) (c : CoachCall) :
    generateVoiceCue st c = (st, none) ∨
    ∃ st' e, generateVoiceCue st c = (st', some e) ∧ e.time = c.now ∧
      st.lastSpeakTime + 4000 ≤ c.now ∧ st'.lastSpeakTime = c.now := by
  unfold generateVoiceCue
  by_cases he : st.enabled = true
  case neg =>
    rw [if_pos (by simpa using he)]
    left
    rfl
  rw [if_neg (by simpa using he)]
  rcases hc : c.comparison with _ | comp
  · left
    rfl
  simp only
  by_cases h4 : c.now - st.lastSpeakTime < 4000
  · rw [if_pos h4]
    left
    rfl
  rw [if_neg h4]
  by_cases h55 : 55 ≤ (worstOf comp.segments).2
  · rw [if_pos h55]
    by_cases hpr : 85 ≤ comp.overall ∧ 8000 < c.now - st.lastSpeakTime
    · rw [if_pos hpr]
      right
      exact ⟨_, _, rfl, rfl, by linarith, rfl⟩
    · rw [if_neg hpr]
      left
      rfl
  rw [if_neg h55]
  by_cases hsup : (worstOf comp.segments).1 = st.lastSpokenSegment ∧
      c.now - st.lastSpeakTime < 8000
  · rw [if_pos hsup]
    left
    rfl
  rw [if_neg hsup]
  right
  exact ⟨_, _, rfl, rfl, by linarith, rfl⟩

theorem generateVoiceCue_constant_worst_spec (k : Segment) (st : CoachState)
    (c : CoachCall)
    (hcall : ∀ comp, c.comparison = some comp →
      (worstOf comp.segments).1 = some k ∧ (worstOf comp.segments).2 < 55) :
    generateVoiceCue st c = (st, none) ∨
    ∃ st' e, generateVoiceCue st c = (st', some e) ∧ e.time = c.now ∧
      e.named = some k ∧ st'.lastSpeakTime = c.now ∧
      st'.lastSpokenSegment = some k ∧ st.lastSpeakTime + 4000 ≤ c.now ∧
      (st.lastSpokenSegment = some k → st.lastSpeakTime + 8000 ≤ c.now) := by
  unfold generateVoiceCue
  by_cases he : st.enabled = true
  case neg =>
    rw [if_pos (by simpa using he)]
    left
    rfl
  rw [if_neg (by simpa using he)]
  rcases hc : c.comparison with _ | comp
  · left
    rfl
  obtain ⟨hk, hscore⟩ := hcall comp hc
  simp only
  by_cases h4 : c.now - st.lastSpeakTime < 4000
  · rw [if_pos h4]
    left
    rfl
  rw [if_neg h4]
  rw [if_neg (by linarith : ¬ (55 : ℝ) ≤ (worstOf comp.segments).2)]
  by_cases hsup : (worstOf comp.segments).1 = st.lastSpokenSegment ∧
      c.now - st.lastSpeakTime < 8000
  · rw [if_pos hsup]
    left
    rfl
  rw [if_neg hsup]
  right
  refine ⟨_, _, rfl, rfl, ?_, rfl, ?_, by linarith, ?_⟩
  · exact hk
  · exact hk
  · intro hlast
    by_contra hlt
    exact hsup ⟨by rw [hk, hlast], by linarith⟩

theorem coachRun_cons (st : CoachState) (c : CoachCall) (cs : List CoachCall) :
    coachRun st (c :: cs) =
      (match (generateVoiceCue st c).2 with | some e => [e] | none => []) ++
        coachRun (generateVoiceCue st c).1 cs := rfl

theorem coachRun_gap_aux : ∀ (calls : List CoachCall) (st : CoachState),
    List.Chain' (fun e1 e2 : Emission => e1.time + 4000 ≤ e2.time)
      (coachRun st calls) ∧
    ∀ e, (coachRun st calls).head? = some e →
      st.lastSpeakTime + 4000 ≤ e.time := by
  intro calls
  induction calls with
  | nil =>
    intro st
    refine ⟨List.chain'_nil, ?_⟩
    intro e he
    simp [coachRun] at he
  | cons c cs ih =>
    intro st
    rcases generateVoiceCue_gap_spec st c with hnone | ⟨st', e, hsome, htime, hgap, hlast⟩
    · have hrun : coachRun st (c :: cs) = coachRun st cs := by
        rw [coachRun_cons, hnone]
        rfl
      rw [hrun]
      exact ih st
    · have hrun : coachRun st (c :: cs) = e :: coachRun st' cs := by
        rw [coachRun_cons, hsome]
        rfl
      rw [hrun]
      obtain ⟨ihchain, ihhead⟩ := ih st'
      constructor
      · rw [List.chain'_cons']
        refine ⟨?_, ihchain⟩
        intro y hy
        have hy2 := ihhead y (Option.mem_def.mp hy)
        rw [hlast] at hy2
        rw [htime]
        linarith
      · intro e2 he2
        obtain rfl := Option.some_inj.mp (List.head?_cons ▸ he2)
        rw [htime]
        exact hgap

theorem coachRun_worst_aux (k : Segment) :
    ∀ (calls : List CoachCall),
    (∀ c ∈ calls, ∀ comp, c.comparison = some comp →
      (worstOf comp.segments).1 = some k ∧ (worstOf comp.segments).2 < 55) →
    ∀ st : CoachState,
    List.Chain' (fun e1 e2 : Emission => e1.time + 8000 ≤ e2.time)
      (coachRun st calls) ∧
    (∀ e ∈ coachRun st calls, e.named = some k) ∧
    (st.lastSpokenSegment = some k → ∀ e, (coachRun st calls).head? = some e →
      st.lastSpeakTime + 8000 ≤ e.time) := by
  intro calls
  induction calls with
  | nil =>
    intro _ st
    refine ⟨List.chain'_nil, ?_, ?_⟩
    · intro e he
      simp [coachRun] at he
    · intro _ e he
      simp [coachRun] at he
  | cons c cs ih =>
    intro hcalls st
    have hc := hcalls c (List.mem_cons_self c cs)
    have hcs := fun c' hc' => hcalls c' (List.mem_cons_of_mem c hc')
    rcases generateVoiceCue_constant_worst_spec k st c hc with
      hnone | ⟨st', e, hsome, htime, hnamed, hlast, hspoken, h4k, h8k⟩
    · have hrun : coachRun st (c :: cs) = coachRun st cs := by
        rw [coachRun_cons, hnone]
        rfl
      rw [hrun]
      exact ih hcs st
    · have hrun : coachRun st (c :: cs) = e :: coachRun st' cs := by
        rw [coachRun_cons, hsome]
        rfl
      rw [hrun]
      obtain ⟨ihchain, ihnamed, ihhead⟩ := ih hcs st'
      refine ⟨?_, ?_, ?_⟩
      · rw [List.chain'_cons']
        refine ⟨?_, ihchain⟩
        intro y hy
        have hy2 := ihhead (by rw [hspoken]) y (Option.mem_def.mp hy)
        rw [hlast] at hy2
        rw [htime]
        linarith
      · intro e2 he2
        rcases List.mem_cons.mp he2 with rfl | he2
        · exact hnamed
        · exact ihnamed e2 he2
      · intro hseg e2 he2
        obtain rfl := Option.some_inj.mp (List.head?_cons ▸ he2)
        rw [htime]
        exact h8k hseg

/-- C5 (confirmed): across any sequence of `generateVoiceCue` calls from any
starting state, any two utterances are at least 4000 ms apart; and when every
call's comparison has the same worst segment `k` scoring below 55, every
utterance names `k` and any two utterances are at least 8000 ms apart. -/
theorem claim_C5_voice_cooldowns (st : CoachState) (calls : List CoachCall) :
    List.Pairwise (fun e1 e2 : Emission => e1.time + 4000 ≤ e2.time)
      (coachRun st calls) ∧
    ∀ k : Segment,
      (∀ c ∈ calls, ∀ comp, c.comparison = some comp →
        (worstOf comp.segments).1 = some k ∧ (worstOf comp.segments).2 < 55) →
      (∀ e ∈ coachRun st calls, e.named = some k) ∧
      List.Pairwise (fun e1 e2 : Emission => e1.time + 8000 ≤ e2.time)
        (coachRun st calls) := by
  haveI : IsTrans Emission (fun e1 e2 => e1.time + 4000 ≤ e2.time) :=
    ⟨fun a b c hab hbc => by linarith⟩
  haveI : IsTrans Emission (fun e1 e2 => e1.time + 8000 ≤ e2.time) :=
    ⟨fun a b c hab hbc => by linarith⟩
  constructor
  · exact List.chain'_iff_pairwise.mp (coachRun_gap_aux calls st).1
  · intro k hk
    obtain ⟨hchain, hnamed, -⟩ := coachRun_worst_aux k calls hk st
    exact ⟨hnamed, List.chain'_iff_pairwise.mp hchain⟩

theorem worstOf_comp30 : worstOf comp30.segments = (some Segment.leftArm, 30) := by
  have hL : comp30.segments Segment.leftArm = some 30 := by simp [comp30]
  have hRA : comp30.segments Segment.rightArm = none := by simp [comp30]
  have hLL : comp30.segments Segment.leftLeg = none := by simp [comp30]
  have hRL : comp30.segments Segment.rightLeg = none := by simp [comp30]
  have hT : comp30.segments Segment.torso = none := by simp [comp30]
  have hH : comp30.segments Segment.head = none := by simp [comp30]
  unfold worstOf
  rw [segList]
  simp only [List.foldl, hL, hRA, hLL, hRL, hT, hH]
  norm_num

/-- C5 witness: two calls 4 s apart with the left arm constantly worst at 30
produce utterances all naming the left arm and at least 8000 ms apart. -/
theorem claim_C5_witness :
    List.Pairwise (fun e1 e2 : Emission => e1.time + 8000 ≤ e2.time)
      (coachRun coachState0 coachCalls) := by
  refine ((claim_C5_voice_cooldowns coachState0 coachCalls).2 Segment.leftArm ?_).2
  intro c hc comp hcomp
  simp only [coachCalls, List.mem_cons, List.mem_singleton, List.not_mem_nil,
    or_false] at hc
  have : comp = comp30 := by
    rcases hc with rfl | rfl <;> exact (Option.some_inj.mp hcomp).symm
  subst this
  rw [worstOf_comp30]
  exact ⟨rfl, by norm_num⟩

/-! ## Claim C6: the timeline chunking -/

theorem sliceChunks_nil {α : Type} (c : ℕ) : sliceChunks c ([] : List α) = [] := by
  rw [sliceChunks]

theorem sliceChunks_cons {α : Type} (c : ℕ) (a : α) (l : List α) :
    sliceChunks (c + 1) (a :: l) =
      (a :: l).take (c + 1) :: sliceChunks (c + 1) (l.drop c) := by
  rw [sliceChunks]

theorem sliceChunks_eq_nil_iff {α : Type} (c : ℕ) (l : List α) :
    sliceChunks (c + 1) l = [] ↔ l = [] := by
  cases l with
  | nil => simp [sliceChunks_nil]
  | cons a l' => simp [sliceChunks_cons]

theorem sliceChunks_flatten {α : Type} (c : ℕ) (l : List α) :
    (sliceChunks (c + 1) l).flatten = l := by
  have key : ∀ (n : ℕ) (l : List α), l.length ≤ n → (sliceChunks (c + 1) l).flatten = l := by
    intro n
    induction n with
    | zero =>
      intro l hl
      obtain rfl := List.eq_nil_of_length_eq_zero (Nat.le_zero.mp hl)
      rw [sliceChunks_nil]
      rfl
    | succ n ih =>
      intro l hl
      cases l with
      | nil => rw [sliceChunks_nil]; rfl
      | cons a l' =>
        rw [sliceChunks_cons, List.flatten_cons,
          ih (l'.drop c) (by simp at hl ⊢; omega)]
        rw [List.take_succ_cons]
        simp [List.take_append_drop]
  exact key l.length l le_rfl

theorem sliceChunks_length {α : Type} (c : ℕ) (l : List α) :
    (sliceChunks (c + 1) l).length = (l.length + c) / (c + 1) := by
  have key : ∀ (n : ℕ) (l : List α), l.length ≤ n →
      (sliceChunks (c + 1) l).length = (l.length + c) / (c + 1) := by
    intro n
    induction n with
    | zero =>
      intro l hl
      obtain rfl := List.eq_nil_of_length_eq_zero (Nat.le_zero.mp hl)
      rw [sliceChunks_nil]
      simp [Nat.div_eq_of_lt (by omega : c < c + 1)]
    | succ n ih =>
      intro l hl
      cases l with
      | nil =>
        rw [sliceChunks_nil]
        simp [Nat.div_eq_of_lt (by omega : c < c + 1)]
      | cons a l' =>
        rw [sliceChunks_cons, List.length_cons,
          ih (l'.drop c) (by simp at hl ⊢; omega)]
        rw [List.length_drop, List.length_cons]
        rw [show l'.length + 1 + c = l'.length + (c + 1) by omega,
          Nat.add_div_right _ (by omega : 0 < c + 1)]
        by_cases hc : c ≤ l'.length
        · rw [show l'.length - c + c = l'.length by omega]
        · rw [show l'.length - c = 0 by omega]
          rw [Nat.div_eq_of_lt (by omega : 0 + c < c + 1),
            Nat.div_eq_of_lt (by omega : l'.length < c + 1)]
  exact key l.length l le_rfl

theorem sliceChunks_sizes {α : Type} (c : ℕ) (l : List α) :
    ∀ ch ∈ sliceChunks (c + 1) l, ch.length ≤ c + 1 ∧ ch ≠ [] := by
  have key : ∀ (n : ℕ) (l : List α), l.length ≤ n →
      ∀ ch ∈ sliceChunks (c + 1) l, ch.length ≤ c + 1 ∧ ch ≠ [] := by
    intro n
    induction n with
    | zero =>
      intro l hl ch hch
      obtain rfl := List.eq_nil_of_length_eq_zero (Nat.le_zero.mp hl)
      rw [sliceChunks_nil] at hch
      cases hch
    | succ n ih =>
      intro l hl ch hch
      cases l with
      | nil => rw [sliceChunks_nil] at hch; cases hch
      | cons a l' =>
        rw [sliceChunks_cons] at hch
        rcases List.mem_cons.mp hch with rfl | hch2
        · constructor
          · simpa using List.length_take_le (c + 1) (a :: l')
          · rw [List.take_succ_cons]
            simp
        · exact ih (l'.drop c) (by simp at hl ⊢; omega) ch hch2
  exact key l.length l le_rfl

theorem sliceChunks_dropLast_sizes {α : Type} (c : ℕ) (l : List α) :
    ∀ ch ∈ (sliceChunks (c + 1) l).dropLast, ch.length = c + 1 := by
  have key : ∀ (n : ℕ) (l : List α), l.length ≤ n →
      ∀ ch ∈ (sliceChunks (c + 1) l).dropLast, ch.length = c + 1 := by
    intro n
    induction n with
    | zero =>
      intro l hl ch hch
      obtain rfl := List.eq_nil_of_length_eq_zero (Nat.le_zero.mp hl)
      rw [sliceChunks_nil] at hch
      cases hch
    | succ n ih =>
      intro l hl ch hch
      cases l with
      | nil => rw [sliceChunks_nil] at hch; cases hch
      | cons a l' =>
        rw [sliceChunks_cons] at hch
        rcases hrest : sliceChunks (c + 1) (l'.drop c) with _ | ⟨ch2, rest2⟩
        · rw [hrest] at hch
          simp at hch
        · rw [hrest, List.dropLast_cons_of_ne_nil (by simp)] at hch
          rcases List.mem_cons.mp hch with rfl | hch2
          · have hne : l'.drop c ≠ [] := by
              intro hnil
              rw [hnil, sliceChunks_nil] at hrest
              cases hrest
            have : c < l'.length := by
              by_contra hle
              exact hne (List.drop_eq_nil_of_le (by omega))
            rw [List.length_take]
            simp
            omega
          · have := ih (l'.drop c) (by simp at hl ⊢; omega)
            rw [hrest] at this
            exact this ch hch2
  exact key l.length l le_rfl

theorem weakestOf_fold_spec (chunk : List Sample) :
    ∀ (keys : List Segment) (w0 : Option Segment) (v0 : ℝ),
      (∀ k ∈ keys,
        (keys.foldl (fun acc k =>
          if meanSeg chunk k < acc.2 then (some k, meanSeg chunk k) else acc)
          (w0, v0)).2 ≤ meanSeg chunk k) ∧
      (keys.foldl (fun acc k =>
        if meanSeg chunk k < acc.2 then (some k, meanSeg chunk k) else acc)
        (w0, v0)).2 ≤ v0 ∧
      ((keys.foldl (fun acc k =>
        if meanSeg chunk k < acc.2 then (some k, meanSeg chunk k) else acc)
        (w0, v0)) = (w0, v0) ∨
       ∃ k ∈ keys, (keys.foldl (fun acc k =>
          if meanSeg chunk k < acc.2 then (some k, meanSeg chunk k) else acc)
          (w0, v0)).1 = some k ∧
        (keys.foldl (fun acc k =>
          if meanSeg chunk k < acc.2 then (some k, meanSeg chunk k) else acc)
          (w0, v0)).2 = meanSeg chunk k ∧
        (keys.foldl (fun acc k =>
          if meanSeg chunk k < acc.2 then (some k, meanSeg chunk k) else acc)
          (w0, v0)).2 < v0) := by
  intro keys
  induction keys with
  | nil =>
    intro w0 v0
    refine ⟨?_, le_rfl, Or.inl rfl⟩
    intro k hk
    cases hk
  | cons k0 ks ih =>
    intro w0 v0
    rw [List.foldl_cons]
    by_cases hlt : meanSeg chunk k0 < v0
    · rw [if_pos hlt]
      obtain ⟨ih1, ih2, ih3⟩ := ih (some k0) (meanSeg chunk k0)
      refine ⟨?_, by linarith, ?_⟩
      · intro k hk
        rcases List.mem_cons.mp hk with rfl | hk2
        · exact ih2
        · exact ih1 k hk2
      · rcases ih3 with heq | ⟨k, hk, h1, h2, h3⟩
        · right
          exact ⟨k0, List.mem_cons_self k0 ks, by rw [heq], by rw [heq], by rw [heq]; exact hlt⟩
        · right
          exact ⟨k, List.mem_cons_of_mem k0 hk, h1, h2, by linarith⟩
    · rw [if_neg hlt]
      obtain ⟨ih1, ih2, ih3⟩ := ih w0 v0
      refine ⟨?_, ih2, ?_⟩
      · intro k hk
        rcases List.mem_cons.mp hk with rfl | hk2
        · linarith [ih2, not_lt.mp hlt]
        · exact ih1 k hk2
      · rcases ih3 with heq | ⟨k, hk, h1, h2, h3⟩
        · exact Or.inl heq
        · exact Or.inr ⟨k, List.mem_cons_of_mem k0 hk, h1, h2, h3⟩

/-- The weakest-segment scan returns `none` only when no key improves on the
sentinel 100, and otherwise a key attaining the minimum segment mean. -/
theorem weakestOf_spec (chunk : List Sample) :
    ((weakestOf chunk).1 = none →
      ∀ k ∈ segKeysOf chunk, ¬ meanSeg chunk k < 100) ∧
    (∀ k, (weakestOf chunk).1 = some k →
      k ∈ segKeysOf chunk ∧ (weakestOf chunk).2 = meanSeg chunk k ∧
      meanSeg chunk k < 100 ∧
      ∀ k' ∈ segKeysOf chunk, meanSeg chunk k ≤ meanSeg chunk k') := by
  obtain ⟨h1, h2, h3⟩ := weakestOf_fold_spec chunk (segKeysOf chunk) none 100
  constructor
  · intro hnone k hk
    rcases h3 with heq | ⟨k2, hk2, hs1, hs2, hs3⟩
    · intro hlt
      have hle := h1 k hk
      rw [heq] at hle
      simp at hle
      linarith
    · unfold weakestOf at hnone
      rw [hnone] at hs1
      cases hs1
  · intro k hsome
    rcases h3 with heq | ⟨k2, hk2, hs1, hs2, hs3⟩
    · unfold weakestOf at hsome
      rw [heq] at hsome
      cases hsome
    · unfold weakestOf at hsome
      rw [hsome] at hs1
      obtain rfl := Option.some_inj.mp hs1.symm
      refine ⟨hk2, by unfold weakestOf; rw [← hs2], by rw [← hs2]; exact hs3, ?_⟩
      intro k' hk'
      have := h1 k' hk'
      rw [hs2] at this
      exact this

/-- C6 (amended, confirmed): the timeline splits the session into
chronological chunks of equal size `max 1 ⌊n/4⌋` (only the last chunk may be
smaller); the number of chunks is `⌈n / chunkSize⌉`, which exceeds 4 whenever
`chunkSize` does not divide the sample count evenly (so "exactly 4 chunks"
only holds for multiples of 4, see the counterexample); each chunk reports
its rounded mean overall score and the first segment attaining the minimal
per-chunk segment mean when that minimum is below the 100 sentinel (`none`
otherwise). -/
theorem claim_C6_timeline (data : List Sample) (h3 : 3 ≤ data.length) :
    (analyzeTimeline data).length =
      (data.length + (max 1 (data.length / 4) - 1)) / max 1 (data.length / 4) ∧
    (sliceChunks (max 1 (data.length / 4)) data).flatten = data ∧
    (∀ ch ∈ (sliceChunks (max 1 (data.length / 4)) data).dropLast,
      ch.length = max 1 (data.length / 4)) ∧
    (∀ ch ∈ sliceChunks (max 1 (data.length / 4)) data,
      ch.length ≤ max 1 (data.length / 4) ∧ ch ≠ []) ∧
    analyzeTimeline data =
      (sliceChunks (max 1 (data.length / 4)) data).map (mkPhase data) ∧
    ∀ ch ∈ sliceChunks (max 1 (data.length / 4)) data,
      (mkPhase data ch).avg = jsRound ((ch.map Sample.overall).sum / (ch.length : ℝ)) ∧
      ((mkPhase data ch).weakestSegment = none →
        ∀ k ∈ segKeysOf ch, ¬ meanSeg ch k < 100) ∧
      (∀ lab, (mkPhase data ch).weakestSegment = some lab →
        ∃ k, lab = (BODY_SEGMENTS k).label ∧ k ∈ segKeysOf ch ∧
          meanSeg ch k < 100 ∧ (mkPhase data ch).weakestScore = jsRound (meanSeg ch k) ∧
          ∀ k' ∈ segKeysOf ch, meanSeg ch k ≤ meanSeg ch k') := by
  obtain ⟨c', hc⟩ : ∃ c', max 1 (data.length / 4) = c' + 1 :=
    ⟨max 1 (data.length / 4) - 1, by omega⟩
  refine ⟨?_, ?_, ?_, ?_, rfl, ?_⟩
  · unfold analyzeTimeline
    rw [List.length_map, hc, sliceChunks_length, Nat.add_sub_cancel]
  · rw [hc]
    exact sliceChunks_flatten c' data
  · rw [hc]
    exact sliceChunks_dropLast_sizes c' data
  · rw [hc]
    exact sliceChunks_sizes c' data
  · intro ch hch
    refine ⟨rfl, ?_, ?_⟩
    · intro hnone
      have h0 : (weakestOf ch).1 = none := by
        have hfield : (mkPhase data ch).weakestSegment =
            (weakestOf ch).1.map (fun k => (BODY_SEGMENTS k).label) := rfl
        rw [hfield] at hnone
        exact Option.map_eq_none'.mp hnone
      exact (weakestOf_spec ch).1 h0
    · intro lab hsome
      have hfield : (mkPhase data ch).weakestSegment =
          (weakestOf ch).1.map (fun k => (BODY_SEGMENTS k).label) := rfl
      rw [hfield] at hsome
      obtain ⟨k, hk1, hk2⟩ := Option.map_eq_some'.mp hsome
      obtain ⟨hmem, hval, hlt, hmin⟩ := (weakestOf_spec ch).2 k hk1
      refine ⟨k, hk2.symm, hmem, hlt, ?_, hmin⟩
      have hfield2 : (mkPhase data ch).weakestScore = jsRound (weakestOf ch).2 := rfl
      rw [hfield2, hval]

/-- C6 (counterexample): a 5-sample session yields 5 timeline chunks, not 4
(chunk size `max 1 ⌊5/4⌋ = 1`). -/
theorem claim_C6_counterexample :
    3 ≤ data5.length ∧ (analyzeTimeline data5).length = 5 ∧ (5 : ℕ) ≠ 4 := by
  refine ⟨by simp [data5], ?_, by omega⟩
  unfold analyzeTimeline
  rw [List.length_map]
  have hlen : data5.length = 5 := by simp [data5]
  rw [hlen]
  norm_num
  have h := sliceChunks_length 0 data5
  norm_num at h
  rw [h, hlen]

/-- C6 witness: the chunks of the 5-sample session reassemble to the session
in order. -/
theorem claim_C6_witness :
    (sliceChunks (max 1 (data5.length / 4)) data5).flatten = data5 :=
  (claim_C6_timeline data5 (by simp [data5])).2.1

/-! ## findWorstMoments: sorting and greedy-selection lemmas (claim C2) -/

theorem insertAsc_perm {α : Type} (key : α → ℝ) (a : α) (l : List α) :
    (insertAsc key a l).Perm (a :: l) := by
  induction l with
  | nil => rfl
  | cons b l ih =>
    rw [insertAsc]
    split_ifs with h
    · rfl
    · exact (ih.cons b).trans (List.Perm.swap a b l)

theorem sortAsc_perm {α : Type} (key : α → ℝ) (l : List α) :
    (sortAsc key l).Perm l := by
  induction l with
  | nil => rfl
  | cons a l ih =>
    rw [sortAsc]
    exact (insertAsc_perm key a _).trans (ih.cons a)

theorem insertAsc_pairwise {α : Type} (key : α → ℝ) (a : α) (l : List α)
    (hl : l.Pairwise (fun x y => key x ≤ key y)) :
    (insertAsc key a l).Pairwise (fun x y => key x ≤ key y) := by
  induction l with
  | nil => simp [insertAsc]
  | cons b l ih =>
    rw [List.pairwise_cons] at hl
    rw [insertAsc]
    split_ifs with h
    · refine List.pairwise_cons.2 ⟨fun x hx => ?_, List.pairwise_cons.2 hl⟩
      rcases List.mem_cons.1 hx with hx | hx
      · exact hx ▸ h
      · exact h.trans (hl.1 x hx)
    · refine List.pairwise_cons.2 ⟨fun x hx => ?_, ih hl.2⟩
      rcases List.mem_cons.1 ((insertAsc_perm key a l).mem_iff.1 hx) with hx | hx
      · exact hx ▸ le_of_not_le h
      · exact hl.1 x hx

theorem sortAsc_pairwise {α : Type} (key : α → ℝ) (l : List α) :
    (sortAsc key l).Pairwise (fun x y => key x ≤ key y) := by
  induction l with
  | nil => exact List.Pairwise.nil
  | cons a l ih =>
    rw [sortAsc]
    exact insertAsc_pairwise key a _ ih

theorem pickLoop_nil (count wS g n : ℕ) (st : List RollingWindow × Finset ℕ) :
    pickLoop count wS g n [] st = st := by
  cases st; rfl

theorem pickLoop_cons (count wS g n : ℕ) (cand : RollingWindow)
    (rest : List RollingWindow) (res : List RollingWindow) (used : Finset ℕ) :
    pickLoop count wS g n (cand :: rest) (res, used) =
      if count ≤ res.length then (res, used)
      else if (Finset.Ico cand.index (cand.index + wS) ∩ used).Nonempty then
        pickLoop count wS g n rest (res, used)
      else
        pickLoop count wS g n rest
          (res ++ [cand],
           used ∪ Finset.Ico (cand.index - g)
             (min n (cand.index + wS + g))) := rfl

/-- Invariant of the greedy selection loop: picked windows fit in the data,
are pairwise separated by at least `windowSamples + guardZone` sample
indices, and never exceed `count` in number. -/
theorem pickLoop_invariant (count wS g n : ℕ) (hw : 0 < wS) :
    ∀ (cands res : List RollingWindow) (used : Finset ℕ),
      (∀ c ∈ cands, c.index + wS ≤ n) →
      (∀ r ∈ res, r.index + wS ≤ n ∧
        Finset.Ico (r.index - g) (min n (r.index + wS + g)) ⊆ used) →
      res.Pairwise
        (fun a b => a.index + wS + g ≤ b.index ∨ b.index + wS + g ≤ a.index) →
      res.length ≤ count →
      (∀ r ∈ (pickLoop count wS g n cands (res, used)).1, r.index + wS ≤ n) ∧
      (pickLoop count wS g n cands (res, used)).1.Pairwise
        (fun a b => a.index + wS + g ≤ b.index ∨ b.index + wS + g ≤ a.index) ∧
      (pickLoop count wS g n cands (res, used)).1.length ≤ count := by
  intro cands
  induction cands with
  | nil =>
    intro res used _ hres hpw hlen
    rw [pickLoop_nil]
    exact ⟨fun r hr => (hres r hr).1, hpw, hlen⟩
  | cons cand rest ih =>
    intro res used hcands hres hpw hlen
    rw [pickLoop_cons]
    split_ifs with h1 h2
    · exact ⟨fun r hr => (hres r hr).1, hpw, hlen⟩
    · exact ih res used (fun c hc => hcands c (List.mem_cons_of_mem _ hc))
        hres hpw hlen
    · apply ih
      · exact fun c hc => hcands c (List.mem_cons_of_mem _ hc)
      · intro r hr
        rcases List.mem_append.1 hr with hr | hr
        · exact ⟨(hres r hr).1, (hres r hr).2.trans Finset.subset_union_left⟩
        · have hc : r = cand := by simpa using hr
          subst hc
          exact ⟨hcands r (List.mem_cons_self _ _), Finset.subset_union_right⟩
      · rw [List.pairwise_append]
        refine ⟨hpw, List.pairwise_singleton _ _, ?_⟩
        intro r hr c' hc'
        have hc'' : c' = cand := by simpa using hc'
        subst hc''
        have hrn := (hres r hr).1
        have hcn := hcands c' (List.mem_cons_self _ _)
        have hsub := (hres r hr).2
        by_contra hns
        push_neg at hns
        refine h2 ⟨max c'.index (r.index - g), ?_⟩
        rw [Finset.mem_inter, Finset.mem_Ico]
        refine ⟨⟨le_max_left _ _, by omega⟩, ?_⟩
        apply hsub
        rw [Finset.mem_Ico]
        omega
      · simp only [List.length_append, List.length_singleton]
        omega

/-- Every rolling window fits inside the valid data. -/
theorem rollingAvgsOf_index_bound (validData : List Sample) (wS : ℕ)
    (c : RollingWindow) (hc : c ∈ rollingAvgsOf validData wS) :
    c.index + wS ≤ validData.length := by
  rw [rollingAvgsOf, List.mem_map] at hc
  obtain ⟨i, hi, rfl⟩ := hc
  rw [List.mem_range] at hi
  show i + wS ≤ validData.length
  omega

/-- The window length is at least 3 samples. -/
theorem windowSamplesOf_pos (v : List Sample) (s : ℝ) :
    0 < windowSamplesOf v s := by
  simp only [windowSamplesOf]
  generalize jsRound _ = k
  have h : (3 : ℤ) ≤ max 3 k := le_max_left _ _
  omega

/-- Explicit form of `findWorstMoments` on the main (non-short-circuit)
branch. -/
theorem findWorstMoments_main (sessionData : List Sample) (count : ℕ)
    (windowSec : ℝ)
    (h5 : ¬ sessionData.length < 5)
    (hv : ¬ (sessionData.filter fun d => isValidSample d).length < 5)
    (hz : ¬ (rollingAvgsOf (sessionData.filter fun d => isValidSample d)
        (windowSamplesOf (sessionData.filter fun d => isValidSample d)
          windowSec)).length = 0) :
    findWorstMoments sessionData count windowSec =
      sortAsc Moment.startVideoTime
        ((pickLoop count
            (windowSamplesOf (sessionData.filter fun d => isValidSample d)
              windowSec)
            (guardZoneOf
              (windowSamplesOf (sessionData.filter fun d => isValidSample d)
                windowSec))
            (sessionData.filter fun d => isValidSample d).length
            (sortAsc RollingWindow.avg
              (rollingAvgsOf (sessionData.filter fun d => isValidSample d)
                (windowSamplesOf (sessionData.filter fun d => isValidSample d)
                  windowSec)))
            ([], ∅)).1.map (fun c =>
          { toMoment
              (windowSamplesOf (sessionData.filter fun d => isValidSample d)
                windowSec) c with
            avgScore := jsRound10 c.avg })) := by
  simp only [findWorstMoments, if_neg h5, if_neg hv, if_neg hz]

/-- Pairwise facts for a symmetric relation transfer along a permutation. -/
theorem pairwise_of_perm {α : Type} {R : α → α → Prop}
    (hs : ∀ a b, R a b → R b a) {l1 l2 : List α} (p : l1.Perm l2)
    (h : l1.Pairwise R) : l2.Pairwise R :=
  (List.Perm.pairwise_iff (fun hab => hs _ _ hab) p).1 h

/-- C2: `findWorstMoments` returns no moment when fewer than 5 samples are
valid (carry a video time and both poses); the returned list always has at
most `count` moments, is sorted by non-decreasing start video time, and the
moments' sample-index windows are pairwise separated by at least
`windowSamples + guardZone` indices (their center indices, which sit at a
common offset `windowSamples / 2` inside their windows, are at least that
far apart), so in particular the windows never overlap. -/
theorem claim_C2_worst_moments (sessionData : List Sample) (count : ℕ)
    (windowSec : ℝ) :
    ((sessionData.filter fun d => isValidSample d).length < 5 →
       findWorstMoments sessionData count windowSec = []) ∧
    (findWorstMoments sessionData count windowSec).length ≤ count ∧
    (findWorstMoments sessionData count windowSec).Pairwise
      (fun m1 m2 => m1.startVideoTime ≤ m2.startVideoTime) ∧
    (findWorstMoments sessionData count windowSec).Pairwise
      (fun m1 m2 =>
        m1.centerIndex
            + windowSamplesOf (sessionData.filter fun d => isValidSample d)
                windowSec
            + guardZoneOf
                (windowSamplesOf
                  (sessionData.filter fun d => isValidSample d) windowSec)
          ≤ m2.centerIndex ∨
        m2.centerIndex
            + windowSamplesOf (sessionData.filter fun d => isValidSample d)
                windowSec
            + guardZoneOf
                (windowSamplesOf
                  (sessionData.filter fun d => isValidSample d) windowSec)
          ≤ m1.centerIndex) := by
  by_cases h5 : sessionData.length < 5
  · have hres : findWorstMoments sessionData count windowSec = [] := by
      simp only [findWorstMoments, if_pos h5]
    rw [hres]
    exact ⟨fun _ => rfl, by simp, List.Pairwise.nil, List.Pairwise.nil⟩
  by_cases hv : (sessionData.filter fun d => isValidSample d).length < 5
  · have hres : findWorstMoments sessionData count windowSec = [] := by
      simp only [findWorstMoments, if_neg h5, if_pos hv]
    rw [hres]
    exact ⟨fun _ => rfl, by simp, List.Pairwise.nil, List.Pairwise.nil⟩
  by_cases hz : (rollingAvgsOf (sessionData.filter fun d => isValidSample d)
      (windowSamplesOf (sessionData.filter fun d => isValidSample d)
        windowSec)).length = 0
  · have hres : findWorstMoments sessionData count windowSec = [] := by
      simp only [findWorstMoments, if_neg h5, if_neg hv, if_pos hz]
    rw [hres]
    exact ⟨fun _ => rfl, by simp, List.Pairwise.nil, List.Pairwise.nil⟩
  have hres := findWorstMoments_main sessionData count windowSec h5 hv hz
  have hwpos : 0 < windowSamplesOf
      (sessionData.filter fun d => isValidSample d) windowSec :=
    windowSamplesOf_pos _ _
  have hinv := pickLoop_invariant count
    (windowSamplesOf (sessionData.filter fun d => isValidSample d) windowSec)
    (guardZoneOf
      (windowSamplesOf (sessionData.filter fun d => isValidSample d)
        windowSec))
    (sessionData.filter fun d => isValidSample d).length hwpos
    (sortAsc RollingWindow.avg
      (rollingAvgsOf (sessionData.filter fun d => isValidSample d)
        (windowSamplesOf (sessionData.filter fun d => isValidSample d)
          windowSec)))
    [] ∅
    (fun c hc => rollingAvgsOf_index_bound _ _ c
      ((sortAsc_perm _ _).mem_iff.1 hc))
    (fun r hr => absurd hr (List.not_mem_nil r))
    List.Pairwise.nil
    (Nat.zero_le count)
  refine ⟨fun h => absurd h hv, ?_, ?_, ?_⟩
  · rw [hres, (sortAsc_perm _ _).length_eq, List.length_map]
    exact hinv.2.2
  · rw [hres]
    exact sortAsc_pairwise _ _
  · rw [hres]
    refine pairwise_of_perm (fun a b h => h.elim Or.inr Or.inl)
      (sortAsc_perm Moment.startVideoTime _).symm ?_
    rw [List.pairwise_map]
    refine hinv.2.1.imp ?_
    intro a b hab
    show a.index
          + windowSamplesOf (sessionData.filter fun d => isValidSample d)
              windowSec / 2
          + windowSamplesOf (sessionData.filter fun d => isValidSample d)
              windowSec
          + guardZoneOf
              (windowSamplesOf
                (sessionData.filter fun d => isValidSample d) windowSec)
        ≤ b.index
          + windowSamplesOf (sessionData.filter fun d => isValidSample d)
              windowSec / 2 ∨
      b.index
          + windowSamplesOf (sessionData.filter fun d => isValidSample d)
              windowSec / 2
          + windowSamplesOf (sessionData.filter fun d => isValidSample d)
              windowSec
          + guardZoneOf
              (windowSamplesOf
                (sessionData.filter fun d => isValidSample d) windowSec)
        ≤ a.index
          + windowSamplesOf (sessionData.filter fun d => isValidSample d)
              windowSec / 2
    omega

/-- C2 witness: five samples, none of which carries a video time or poses,
yield no worst moments. -/
theorem claim_C2_witness : findWorstMoments dataTiny 3 3 = [] := by
  apply (claim_C2_worst_moments dataTiny 3 3).1
  have h : dataTiny.filter (fun d => isValidSample d) = [] := rfl
  rw [h]
  simp
